import Mathlib

/-!
# Verification development for the `ro-releases` Hercules plugins

Shallow embedding of three map-server plugins:

* `plugin_client_emote_ui_handler.c`  (namespace `EmoteUI`)
* `ns_client_ally_chat_handler.c`     (namespace `AllyChat`)
* `ns_button_rodex_return.c`          (namespace `RodexReturn`)

Conventions of the embedding.

* A handler is a pure function from the data it reads (player record, pack
  database, clock, host answers) to the new player record and the list of
  packets handed to `clif->send`, in the order of the calls.
* C integers are `Int`/`Nat`; every narrowing conversion of the source is an
  explicit `wrapS w` (to a signed `w`-bit value) or `wrapU w` (to an unsigned
  one).
* `time(NULL)` is a parameter `now`; all reads of the clock inside one handler
  invocation return the same second.
* Functions of the host server (Hercules `pc`, `guild`, `rodex`, `DBMap`, ...)
  are not part of the repository; each one used is either a parameter or a
  small model flagged as "Host".
-/

/-! ## Machine integers -/

/-- Conversion of an integer to an unsigned `w`-bit value (C conversion to `uintW`). -/
def wrapU (w : Nat) (x : Int) : Nat := (x % (2 : Int) ^ w).toNat

/-- Conversion of an integer to a signed `w`-bit value (two's complement, C conversion to `intW`). -/
def wrapS (w : Nat) (x : Int) : Int :=
  if x % (2 : Int) ^ w < (2 : Int) ^ (w - 1) then x % (2 : Int) ^ w else x % (2 : Int) ^ w - (2 : Int) ^ w

/-- The `enum send_target` values of the host that the plugins use. -/
inductive send_target where
  | SELF
  | AREA
  | GUILD
deriving DecidableEq, Repr

namespace EmoteUI

/-! ## Global config and constants (`plugin_client_emote_ui_handler.c`) -/

/-- Item id of the currency, `int16 UI_CURRENCY_ID = 6909`. -/
def UI_CURRENCY_ID : Int := 6909

/-- Value of `#define MAX_EMOTE_PACKS 100`. -/
def MAX_EMOTE_PACKS : Nat := 100

def HEADER_CZ_REQ_EMOTION2 : Nat := 0x0be9
def HEADER_ZC_EMOTION_SUCCESS : Nat := 0x0bea
def HEADER_ZC_EMOTION_FAIL : Nat := 0x0beb
def HEADER_CZ_EMOTION_EXPANSION_REQ : Nat := 0x0bec
def HEADER_ZC_EMOTION_EXPANSION_SUCCESS : Nat := 0x0bed
def HEADER_ZC_EMOTION_EXPANSION_FAIL : Nat := 0x0bee

/-- Header of the pack list, chosen by `#if PACKETVER >= 20230920`. -/
def HEADER_ZC_EMOTION_EXPANSION_LIST (PACKETVER : Nat) : Nat :=
  if PACKETVER ≥ 20230920 then 0x0bf6 else 0x0bef

/-! `enum emotion_expansion_msg` -/

def EMSG_EMOTION_EXPANSION_NOT_ENOUGH_NYANGVINE : Nat := 0
def EMSG_EMOTION_EXPANSION_FAIL_DATE : Nat := 1
def EMSG_EMOTION_EXPANSION_FAIL_ALREADY_BUY : Nat := 2
def EMSG_EMOTION_EXPANSION_FAIL_ANOTHER_SALE_BUY : Nat := 3
def EMSG_EMOTION_EXPANSION_NOT_ENOUGH_BASICSKILL_LEVEL : Nat := 4
def EMSG_NOT_YET_SALE_START_TIME : Nat := 5
def EMSG_EMOTION_EXPANSION_FAIL_UNKNOWN : Nat := 6

/-! `enum emote_msg` -/

def EMSG_EMOTION_EXPANSION_USE_FAIL_DATE : Nat := 0
def EMSG_EMOTION_EXPANSION_USE_FAIL_UNPURCHASED : Nat := 1
def EMSG_EMOTION_USE_FAIL_SKILL_LEVEL : Nat := 2
def EMSG_EMOTION_EXPANSION_USE_FAIL_UNKNOWN : Nat := 3

/-! `enum client_emotion_type` (the members the code names) -/

def ET_BLANK : Int := -1
def ET_SURPRISE : Int := 0
def ET_CHAT_PROHIBIT : Int := 34
def ET_DICE1 : Int := 58
def ET_DICE6 : Int := 63
def ET_EMOTION_LAST : Int := 108

/-- Host constant `E_DICE1` of `enum emotion_type` (the value `ET_DICE1` mirrors). -/
def E_DICE1 : Int := 58

/-- Host constant `E_DICE6` of `enum emotion_type` (the value `ET_DICE6` mirrors). -/
def E_DICE6 : Int := 63

/-! ## Packets -/

/-- Mirror of `struct PACKET_ZC_EMOTION_SUCCESS`. -/
structure PACKET_ZC_EMOTION_SUCCESS where
  packetType : Nat
  GID : Nat
  packId : Nat
  emoteId : Nat
deriving DecidableEq, Repr

/-- Mirror of `struct PACKET_ZC_EMOTION_FAIL`. -/
structure PACKET_ZC_EMOTION_FAIL where
  packetType : Nat
  packId : Nat
  emoteId : Nat
  status : Nat
deriving DecidableEq, Repr

/-- Mirror of `struct PACKET_ZC_EMOTION_EXPANSION_SUCCESS`. -/
structure PACKET_ZC_EMOTION_EXPANSION_SUCCESS where
  packetType : Nat
  packId : Nat
  isRented : Nat
  timestamp : Nat
deriving DecidableEq, Repr

/-- Mirror of `struct PACKET_ZC_EMOTION_EXPANSION_FAIL`. -/
structure PACKET_ZC_EMOTION_EXPANSION_FAIL where
  packetType : Nat
  packId : Nat
  status : Nat
deriving DecidableEq, Repr

/-- Mirror of `struct PACKET_ZC_EMOTION_EXPANSION_LIST_sub`. -/
structure PACKET_ZC_EMOTION_EXPANSION_LIST_sub where
  packId : Nat
  isRented : Nat
  timestamp : Nat
deriving DecidableEq, Repr

/-- Mirror of `struct PACKET_ZC_EMOTION_EXPANSION_LIST`; `timezone` exists only
for `PACKETVER >= 20230920`, `list` is the flexible array member. -/
structure PACKET_ZC_EMOTION_EXPANSION_LIST where
  packetType : Nat
  packetLength : Nat
  timestamp : Nat
  timezone : Option Int
  list : List PACKET_ZC_EMOTION_EXPANSION_LIST_sub
deriving DecidableEq, Repr

/-- The packets this plugin sends. -/
inductive Packet where
  | emotion_success (p : PACKET_ZC_EMOTION_SUCCESS)
  | emotion_fail (p : PACKET_ZC_EMOTION_FAIL)
  | expansion_success (p : PACKET_ZC_EMOTION_EXPANSION_SUCCESS)
  | expansion_fail (p : PACKET_ZC_EMOTION_EXPANSION_FAIL)
  | expansion_list (p : PACKET_ZC_EMOTION_EXPANSION_LIST)
deriving DecidableEq, Repr

/-- The `packetType` field of a packet. -/
def Packet.packetType : Packet → Nat
  | .emotion_success p => p.packetType
  | .emotion_fail p => p.packetType
  | .expansion_success p => p.packetType
  | .expansion_fail p => p.packetType
  | .expansion_list p => p.packetType

/-- One call `clif->send(&p, len, bl, target)`: the packet, the id of the block
list entry it is sent for, and the send target. -/
structure Sent where
  pkt : Packet
  bl : Int
  target : send_target
deriving DecidableEq, Repr

/-! ## Data model -/

/-- Mirror of `struct s_emotion_db`. `emoteIds` is the array, of which the
first `emote_count` slots are in use. -/
structure s_emotion_db where
  packId : Nat
  packType : Nat
  packPrice : Nat
  sale_start : Int
  sale_end : Int
  rental_period : Nat
  emote_count : Nat
  emoteIds : List Int
deriving DecidableEq, Repr

/-- Host: an integer-keyed `DBMap` (`idb_alloc`), as the list of its
(key, data) pairs in iteration order; keys are unique. -/
abbrev DBMap := List (Int × s_emotion_db)

/-- Host: `idb_get(db, k)`, the data stored under key `k`, if any. -/
def idb_get (db : DBMap) (k : Int) : Option s_emotion_db :=
  (db.find? (fun e => e.1 == k)).map (fun e => e.2)

/-- Host: `idb_put(db, k, data)`, which replaces the data of an existing key. -/
def idb_put (db : DBMap) (k : Int) (data : s_emotion_db) : DBMap :=
  if db.any (fun e => e.1 == k) then
    db.map (fun e => if e.1 == k then (k, data) else e)
  else db ++ [(k, data)]

/-- Host: one inventory slot (`struct item`), the two fields the plugin reads. -/
structure item where
  nameid : Int
  amount : Int
deriving DecidableEq, Repr

/-- The part of `struct map_session_data` the plugin touches. `regs` is the
player's persistent variable registry, read by `pc_readglobalreg` and written
by `pc_setglobalreg`, keyed by variable name (a leading `#` names an
account-wide variable); an unset variable reads 0. `skill_NV_BASIC` and
`skill_SU_BASIC_SKILL` are what `pc->checkskill` returns for these skills. -/
structure map_session_data where
  bl_id : Int
  fd : Int
  emotionlasttime : Int
  regs : String → Int
  inventory : List item
  skill_NV_BASIC : Int
  skill_SU_BASIC_SKILL : Int

/-- The fields of the host's `battle->bc` the plugin reads. -/
structure Battle_Config where
  basic_skill_check : Int
  client_reshuffle_dice : Int
deriving DecidableEq, Repr

/-- Host: `pc_readglobalreg(sd, script->add_variable(name))`. -/
def pc_readglobalreg (sd : map_session_data) (name : String) : Int :=
  sd.regs name

/-- Host: `pc_setglobalreg(sd, script->add_variable(name), val)`. -/
def pc_setglobalreg (sd : map_session_data) (name : String) (val : Int) : map_session_data :=
  { sd with regs := fun x => if x = name then val else sd.regs x }

/-- Host: `pc->search_inventory(sd, item_id)`: the first slot holding the item
with a positive amount; `none` is `INDEX_NOT_FOUND`. -/
def pc_search_inventory (sd : map_session_data) (item_id : Int) : Option Nat :=
  let i := sd.inventory.findIdx (fun it => it.nameid == item_id && (decide (it.amount > 0) || item_id == 0))
  if i < sd.inventory.length then some i else none

/-- Host: `pc->delitem(sd, n, amount, ...)`: takes `amount` units out of slot
`n`, clearing the slot when it becomes empty; does nothing when the slot is
empty, the amount is not positive or exceeds what the slot holds. -/
def pc_delitem (sd : map_session_data) (n : Nat) (amount : Int) : map_session_data :=
  match sd.inventory.get? n with
  | none => sd
  | some it =>
    if it.nameid = 0 ∨ amount ≤ 0 ∨ it.amount < amount then sd
    else if it.amount - amount ≤ 0 then
      { sd with inventory := sd.inventory.set n { nameid := 0, amount := 0 } }
    else
      { sd with inventory := sd.inventory.set n { it with amount := it.amount - amount } }

/-- The register name built by
`sprintf(var_name, "%scashemote_%d", ce->packType == 1 ? "#" : "", ce->packId)`. -/
def var_name (ce : s_emotion_db) : String :=
  (if ce.packType = 1 then "#" else "") ++ "cashemote_" ++ toString ce.packId

/-- The register name built by
`sprintf(var_expire, "%scashemoteexpire_%d", ce->packType == 1 ? "#" : "", ce->packId)`. -/
def var_expire (ce : s_emotion_db) : String :=
  (if ce.packType = 1 then "#" else "") ++ "cashemoteexpire_" ++ toString ce.packId

/-! ## Emotion playback -/

/-- Embedding of `clif_send_emote_success`. -/
def clif_send_emote_success (bl_id : Int) (packId emoteId : Int) : List Sent :=
  [{ pkt := .emotion_success
        { packetType := HEADER_ZC_EMOTION_SUCCESS
          GID := wrapU 32 bl_id
          packId := wrapU 16 packId
          emoteId := wrapU 16 emoteId }
     bl := bl_id
     target := .AREA }]

/-- Embedding of `clif_send_emote_fail`. -/
def clif_send_emote_fail (sd : map_session_data) (packId emoteId : Int) (emote_status : Nat) : List Sent :=
  [{ pkt := .emotion_fail
        { packetType := HEADER_ZC_EMOTION_FAIL
          packId := wrapU 16 packId
          emoteId := wrapU 16 emoteId
          status := wrapU 8 emote_status }
     bl := sd.bl_id
     target := .SELF }]

/-- Embedding of `emote_check_before_use(sd, packId, emoteId)` for a non-null
`sd`: the new player record and the packets sent. `now` is `time(NULL)`, `rnd`
the value the host's `rnd()` returns. (`pc->update_idle_time` only touches the
host's idle timer, which nothing here reads.) -/
def emote_check_before_use (bc : Battle_Config) (emotion_db : DBMap) (now : Int) (rnd : Nat)
    (sd : map_session_data) (packId emoteId : Int) : map_session_data × List Sent :=
  if bc.basic_skill_check ≠ 0 ∧ sd.skill_NV_BASIC < 2 ∧ sd.skill_SU_BASIC_SKILL < 1 then
    (sd, clif_send_emote_fail sd packId emoteId EMSG_EMOTION_USE_FAIL_SKILL_LEVEL)
  else if emoteId = ET_CHAT_PROHIBIT then
    (sd, clif_send_emote_fail sd packId emoteId EMSG_EMOTION_EXPANSION_USE_FAIL_UNKNOWN)
  else if sd.emotionlasttime + 1 ≥ now then
    let sd1 := { sd with emotionlasttime := now }
    (sd1, clif_send_emote_fail sd1 packId emoteId EMSG_EMOTION_EXPANSION_USE_FAIL_UNKNOWN)
  else
    let sd1 := { sd with emotionlasttime := now }
    match idb_get emotion_db packId with
    | none => (sd1, clif_send_emote_fail sd1 packId emoteId EMSG_EMOTION_EXPANSION_USE_FAIL_UNKNOWN)
    | some ce =>
      -- for (i = 0; i < ce->emote_count; i++) if (ce->emoteIds[i] == emoteId) found = true
      if ¬ (emoteId ∈ ce.emoteIds.take ce.emote_count) then
        (sd1, clif_send_emote_fail sd1 packId emoteId EMSG_EMOTION_EXPANSION_USE_FAIL_UNKNOWN)
      else
        let emoteId1 :=
          if bc.client_reshuffle_dice ≠ 0 ∧ emoteId ≥ E_DICE1 ∧ emoteId ≤ E_DICE6 then
            wrapS 16 ((rnd : Int) % 6 + E_DICE1)
          else emoteId
        let played := (sd1, clif_send_emote_success sd1.bl_id packId emoteId1)
        if ce.packId ≠ 0 then
          if pc_readglobalreg sd1 (var_name ce) = 0 then
            (sd1, clif_send_emote_fail sd1 packId emoteId EMSG_EMOTION_EXPANSION_USE_FAIL_UNPURCHASED)
          else if ce.rental_period ≠ 0 ∧ now > pc_readglobalreg sd1 (var_expire ce) then
            (sd1, clif_send_emote_fail sd1 packId emoteId EMSG_EMOTION_EXPANSION_USE_FAIL_DATE)
          else played
        else played

/-- Embedding of `clif_parse_emotion2`: the packet fields are `uint16`, the
parameters of `emote_check_before_use` are `int16`. -/
def clif_parse_emotion2 (bc : Battle_Config) (emotion_db : DBMap) (now : Int) (rnd : Nat)
    (sd : map_session_data) (p_packId p_emoteId : Nat) : map_session_data × List Sent :=
  emote_check_before_use bc emotion_db now rnd sd (wrapS 16 p_packId) (wrapS 16 p_emoteId)

/-- The headers of the packets sent, in order. -/
def sent_headers (out : List Sent) : List Nat := out.map (fun s => s.pkt.packetType)

/-! ## Pack purchase -/

/-- Embedding of `clif_send_emote_expansion_success`. -/
def clif_send_emote_expansion_success (sd : map_session_data) (packId : Int) (isRented : Int)
    (RentEndTime : Nat) : List Sent :=
  [{ pkt := .expansion_success
        { packetType := HEADER_ZC_EMOTION_EXPANSION_SUCCESS
          packId := wrapU 16 packId
          isRented := wrapU 8 isRented
          timestamp := RentEndTime }
     bl := sd.bl_id
     target := .SELF }]

/-- Embedding of `clif_send_emote_expansion_fail`. -/
def clif_send_emote_expansion_fail (sd : map_session_data) (packId : Int) (emote_status : Nat) : List Sent :=
  [{ pkt := .expansion_fail
        { packetType := HEADER_ZC_EMOTION_EXPANSION_FAIL
          packId := wrapU 16 packId
          status := wrapU 8 emote_status }
     bl := sd.bl_id
     target := .SELF }]

/-- The block `if (amount > 0) { ... pc->delitem(...) }` of
`emote_expansion_purchase`: `none` when the currency is missing or too scarce,
otherwise the player record after the payment. -/
def pay_currency (sd : map_session_data) (itemId amount : Int) : Option map_session_data :=
  if amount > 0 then
    match pc_search_inventory sd itemId with
    | none => none
    | some idx =>
      if ((sd.inventory.get? idx).map (fun it => it.amount)).getD 0 < amount then none
      else some (pc_delitem sd idx amount)
  else some sd

/-- Embedding of `emote_expansion_purchase(sd, packId, itemId, amount)` for a
non-null `sd`; `packId`, `itemId` are `int16` and `amount` is `int8`. -/
def emote_expansion_purchase (bc : Battle_Config) (emotion_db : DBMap) (now : Int)
    (sd : map_session_data) (packId itemId amount : Int) : map_session_data × List Sent :=
  if itemId ≠ UI_CURRENCY_ID then
    (sd, clif_send_emote_expansion_fail sd packId EMSG_EMOTION_EXPANSION_FAIL_UNKNOWN)
  else if bc.basic_skill_check ≠ 0 ∧ sd.skill_NV_BASIC < 2 ∧ sd.skill_SU_BASIC_SKILL < 1 then
    (sd, clif_send_emote_expansion_fail sd packId EMSG_EMOTION_EXPANSION_NOT_ENOUGH_BASICSKILL_LEVEL)
  else
    match idb_get emotion_db packId with
    | none => (sd, clif_send_emote_expansion_fail sd packId EMSG_EMOTION_EXPANSION_FAIL_UNKNOWN)
    | some ce =>
      if amount ≠ (ce.packPrice : Int) then
        (sd, clif_send_emote_expansion_fail sd packId EMSG_EMOTION_EXPANSION_FAIL_UNKNOWN)
      else if ce.sale_start ≠ 0 ∧ ce.sale_start > now then
        (sd, clif_send_emote_expansion_fail sd packId EMSG_NOT_YET_SALE_START_TIME)
      else if ce.sale_end ≠ 0 ∧ ce.sale_end < now then
        (sd, clif_send_emote_expansion_fail sd packId EMSG_EMOTION_EXPANSION_FAIL_DATE)
      else if pc_readglobalreg sd (var_name ce) ≠ 0 then
        (sd, clif_send_emote_expansion_fail sd packId EMSG_EMOTION_EXPANSION_FAIL_ALREADY_BUY)
      else
        match pay_currency sd itemId amount with
        | none => (sd, clif_send_emote_expansion_fail sd packId EMSG_EMOTION_EXPANSION_NOT_ENOUGH_NYANGVINE)
        | some sd1 =>
          let sd2 := pc_setglobalreg sd1 (var_name ce) 1
          if ce.rental_period ≠ 0 then
            -- uint64 expire_time = (uint64)(now + ce->rental_period)
            let expire_time : Nat := wrapU 64 (now + (ce.rental_period : Int))
            let sd3 := pc_setglobalreg sd2 (var_expire ce) (wrapS 32 expire_time)
            (sd3, clif_send_emote_expansion_success sd3 packId 1 (wrapU 32 expire_time))
          else
            (sd2, clif_send_emote_expansion_success sd2 packId 0 0)

/-- Embedding of `clif_parse_emote_expansion_request`: the packet fields are
`uint16`, `uint16`, `uint8`; the callee takes `int16`, `int16`, `int8`. -/
def clif_parse_emote_expansion_request (bc : Battle_Config) (emotion_db : DBMap) (now : Int)
    (sd : map_session_data) (p_packId p_itemId p_amount : Nat) : map_session_data × List Sent :=
  emote_expansion_purchase bc emotion_db now sd (wrapS 16 p_packId) (wrapS 16 p_itemId) (wrapS 8 p_amount)

/-! ## List of active packs -/

/-- The value of `sizeof(struct PACKET_ZC_EMOTION_EXPANSION_LIST)` (packed, the
flexible array member not counted). -/
def sizeof_PACKET_ZC_EMOTION_EXPANSION_LIST (PACKETVER : Nat) : Nat :=
  if PACKETVER ≥ 20230920 then 2 + 2 + 4 + 2 else 2 + 2 + 4

/-- The value of `sizeof(struct PACKET_ZC_EMOTION_EXPANSION_LIST_sub)` (packed). -/
def sizeof_PACKET_ZC_EMOTION_EXPANSION_LIST_sub : Nat := 2 + 1 + 4

/-- Embedding of `clif_send_emote_expansion_list(sd, list, count)`; `list` holds
the `count` entries that are copied into the packet. -/
def clif_send_emote_expansion_list (PACKETVER : Nat) (now : Int) (sd : map_session_data)
    (list : List PACKET_ZC_EMOTION_EXPANSION_LIST_sub) (count : Nat) : List Sent :=
  let packet_len : Nat :=
    wrapU 16 ((sizeof_PACKET_ZC_EMOTION_EXPANSION_LIST PACKETVER
      + count * sizeof_PACKET_ZC_EMOTION_EXPANSION_LIST_sub : Nat) : Int)
  [{ pkt := .expansion_list
        { packetType := HEADER_ZC_EMOTION_EXPANSION_LIST PACKETVER
          packetLength := packet_len
          timestamp := wrapU 32 now
          timezone := if PACKETVER ≥ 20230920 then some 540 else none
          list := list.take count }
     bl := sd.bl_id
     target := .SELF }]

/-- One iteration of the `for (entry = dbi_first(iter); ...)` loop of
`emote_get_player_packs`; the state is the player record and the entries
`packs[0 .. count-1]` filled so far. -/
def emote_get_player_packs_step (now : Int)
    (acc : map_session_data × List PACKET_ZC_EMOTION_EXPANSION_LIST_sub) (entry : s_emotion_db) :
    map_session_data × List PACKET_ZC_EMOTION_EXPANSION_LIST_sub :=
  let sd := acc.1
  let packs := acc.2
  let has_pack := pc_readglobalreg sd (var_name entry)
  let expire_time := pc_readglobalreg sd (var_expire entry)
  if has_pack ≠ 0 ∧ entry.rental_period ≠ 0 ∧ now > expire_time then
    (pc_setglobalreg (pc_setglobalreg sd (var_name entry) 0) (var_expire entry) 0, packs)
  else if has_pack ≠ 0 ∧ packs.length < MAX_EMOTE_PACKS then
    (sd, packs ++ [{ packId := entry.packId
                     isRented := if entry.rental_period ≠ 0 then 1 else 0
                     timestamp := wrapU 32 expire_time }])
  else (sd, packs)

/-- Embedding of `emote_get_player_packs(sd)` for a non-null `sd`;
`emotion_db = none` is the null pointer of an unloaded database. -/
def emote_get_player_packs (PACKETVER : Nat) (emotion_db : Option DBMap) (now : Int)
    (sd : map_session_data) : map_session_data × List Sent :=
  if sd.fd = 0 then (sd, [])
  else
    match emotion_db with
    | none => (sd, [])
    | some db =>
      let r := (db.map (fun e => e.2)).foldl (emote_get_player_packs_step now) (sd, [])
      (r.1, clif_send_emote_expansion_list PACKETVER now r.1 r.2 r.2.length)

/-- The entries of the pack lists sent, in order. -/
def sent_pack_list (out : List Sent) : List PACKET_ZC_EMOTION_EXPANSION_LIST_sub :=
  out.flatMap (fun s => match s.pkt with
    | .expansion_list p => p.list
    | _ => [])

/-! ## Loading the pack database -/

/-- Host (libconfig): one group of the `emotion_pack_db` list; a field is
`none` when the setting is absent (the lookup fails). An element of
`EmotesList` is `none` when it is not a string. -/
structure config_setting_t where
  PackId : Option Int
  PackType : Option Int
  PackPrice : Option Int
  SaleStart : Option Int
  SaleEnd : Option Int
  RentalPeriod : Option Int
  EmotesList : Option (List (Option String))

/-- Embedding of `plugin_convert_to_unix_timestamp`; `mktime` is the C library
function applied to a `struct tm` with the given `tm_year`, `tm_mon`, `tm_mday`
and the other fields 0. -/
def plugin_convert_to_unix_timestamp (mktime : Int → Int → Int → Int) (date_val : Nat) : Int :=
  mktime (wrapS 32 (date_val / 10000 : Nat) - 1900) (wrapS 32 ((date_val / 100) % 100 : Nat) - 1)
    (wrapS 32 (date_val % 100 : Nat))

/-- The inner loop of `emote_db_init` over `EmotesList`: appends the valid
constants to the emote array `ids` while fewer than `MAX_EMOTE_PACKS` are stored. -/
def load_emotes (get_constant : String → Option Int) : List (Option String) → List Int → List Int
  | [], ids => ids
  | ename :: rest, ids =>
    if ids.length < MAX_EMOTE_PACKS then
      match ename with
      | none => load_emotes get_constant rest ids
      | some name =>
        match get_constant name with
        | some val =>
          if val ≥ 0 ∧ val < ET_EMOTION_LAST then load_emotes get_constant rest (ids ++ [val])
          else load_emotes get_constant rest ids
        | none => load_emotes get_constant rest ids
    else ids

/-- One iteration of the outer loop of `emote_db_init`: an entry lacking one of
the six scalar settings is skipped, otherwise the pack is built and stored
under the key `temp_packId`. -/
def emote_db_init_step (get_constant : String → Option Int) (mktime : Int → Int → Int → Int)
    (db : DBMap) (entry : config_setting_t) : DBMap :=
  match entry.PackId, entry.PackType, entry.PackPrice, entry.SaleStart, entry.SaleEnd,
      entry.RentalPeriod with
  | some temp_packId, some temp_packType, some temp_packPrice, some temp_saleStart,
      some temp_saleEnd, some temp_rentalPeriod =>
    let ids := match entry.EmotesList with
      | some emotes => load_emotes get_constant emotes []
      | none => []
    let ce : s_emotion_db :=
      { packId := wrapU 16 temp_packId
        packType := wrapU 16 temp_packType
        packPrice := wrapU 16 temp_packPrice
        sale_start := if temp_saleStart ≠ 0 then
            plugin_convert_to_unix_timestamp mktime (wrapU 64 temp_saleStart) else 0
        sale_end := if temp_saleEnd ≠ 0 then
            plugin_convert_to_unix_timestamp mktime (wrapU 64 temp_saleEnd) else 0
        rental_period := wrapU 64 ((wrapU 64 temp_rentalPeriod : Int) * 60 * 60 * 24)
        emote_count := ids.length
        emoteIds := ids }
    idb_put db temp_packId ce
  | _, _, _, _, _, _ => db

/-- Embedding of `emote_db_init`: `conf` is `none` when the file cannot be
loaded, `some none` when the `emotion_pack_db` list is missing; the result is
the returned flag and the new value of the global `emotion_db`. -/
def emote_db_init (get_constant : String → Option Int) (mktime : Int → Int → Int → Int)
    (conf : Option (Option (List config_setting_t))) (emotion_db : Option DBMap) :
    Bool × Option DBMap :=
  match conf with
  | none => (false, emotion_db)
  | some none => (false, emotion_db)
  | some (some root) =>
    (true, some (root.foldl (emote_db_init_step get_constant mktime) (emotion_db.getD [])))

/-! ## Packet registration -/

/-- The value of `sizeof(struct PACKET_CZ_REQ_EMOTION2)` (packed): `uint16`, `uint16`, `uint16`. -/
def sizeof_PACKET_CZ_REQ_EMOTION2 : Nat := 2 + 2 + 2

/-- The value of `sizeof(struct PACKET_ZC_EMOTION_SUCCESS)` (packed): `uint16`, `uint32`,
`uint16`, `uint16`. -/
def sizeof_PACKET_ZC_EMOTION_SUCCESS : Nat := 2 + 4 + 2 + 2

/-- The value of `sizeof(struct PACKET_ZC_EMOTION_FAIL)` (packed): `uint16`, `uint16`,
`uint16`, `uint8`. -/
def sizeof_PACKET_ZC_EMOTION_FAIL : Nat := 2 + 2 + 2 + 1

/-- The value of `sizeof(struct PACKET_CZ_EMOTION_EXPANSION_REQ)` (packed): `uint16`, `uint16`,
`uint16`, `uint8`. -/
def sizeof_PACKET_CZ_EMOTION_EXPANSION_REQ : Nat := 2 + 2 + 2 + 1

/-- The value of `sizeof(struct PACKET_ZC_EMOTION_EXPANSION_SUCCESS)` (packed): `uint16`,
`uint16`, `uint8`, `uint32`. -/
def sizeof_PACKET_ZC_EMOTION_EXPANSION_SUCCESS : Nat := 2 + 2 + 1 + 4

/-- The value of `sizeof(struct PACKET_ZC_EMOTION_EXPANSION_FAIL)` (packed): `uint16`, `uint16`,
`uint8`. -/
def sizeof_PACKET_ZC_EMOTION_EXPANSION_FAIL : Nat := 2 + 2 + 1

/-- One registration `plugin_init` makes with the host: `addPacket(cmd, len, receive,
hpClif_Parse)` for a packet the plugin parses, `packets->addLen(id, len)` for one it sends. -/
inductive registration where
  | addPacket (cmd : Nat) (len : Int) (receive : String)
  | addLen (id : Nat) (len : Int)
deriving DecidableEq, Repr

/-- The header a registration is made for. -/
def registration.header : registration → Nat
  | .addPacket cmd _ _ => cmd
  | .addLen id _ => id

/-- The length a registration gives to its header. -/
def registration.len : registration → Int
  | .addPacket _ len _ => len
  | .addLen _ len => len

/-- Embedding of `plugin_init`, the packet registrations: the seven calls of the
`#if PACKETVER >= 20230802` variant, none in the `#else` variant (which only prints a warning).
The hooks, the script constants and the call of `emote_db_init` are not packet registrations. -/
def plugin_init (PACKETVER : Nat) : List registration :=
  if PACKETVER ≥ 20230802 then
    [.addPacket 0x0be9 6 "clif_parse_emotion2",
     .addPacket 0x0bec 7 "clif_parse_emote_expansion_request",
     .addLen 0x0bea 10,
     .addLen 0x0beb 7,
     .addLen 0x0bed 9,
     .addLen 0x0bee 5,
     .addLen 0x0bf6 (-1)]
  else []

/-- The length registered for `header`, if any. -/
def registered_len (regs : List registration) (header : Nat) : Option Int :=
  (regs.find? (fun r => r.header == header)).map (fun r => r.len)

end EmoteUI

namespace AllyChat

/-! ## Alliance chat (`ns_client_ally_chat_handler.c`) -/

def HEADER_ZC_ALLY_CHAT : Nat := 0x0bde
def HEADER_CZ_ALLY_CHAT : Nat := 0x0bdd

/-- Mirror of `struct PACKET_ZC_ALLY_CHAT`; `message` is the flexible array
member, as bytes. -/
structure PACKET_ZC_ALLY_CHAT where
  packetType : Int
  packetLength : Int
  message : List Nat
deriving DecidableEq, Repr

/-- The value of `sizeof(struct PACKET_ZC_ALLY_CHAT)` (packed, flexible array not counted). -/
def sizeof_PACKET_ZC_ALLY_CHAT : Nat := 2 + 2

/-- Host: `struct guild_alliance`, the fields read. -/
structure guild_alliance where
  opposition : Int
  guild_id : Int
deriving DecidableEq, Repr

/-- Host: `struct guild`, the fields read; `alliance i` is the slot
`alliance[i]` of the array of `MAX_GUILDALLIANCE` slots. -/
structure guild where
  guild_id : Int
  alliance : Nat → guild_alliance

/-- Host interface used by the plugin: `guild->getavailablesd` (the block id of
an online member, `none` for `NULL`), `guild->search`, and the constants
`MAX_GUILDALLIANCE` and `CHAT_SIZE_MAX` of `mmo.h`. -/
structure Host where
  getavailablesd : guild → Option Int
  search : Int → Option guild
  MAX_GUILDALLIANCE : Nat
  CHAT_SIZE_MAX : Nat

/-- One call `clif->send(p, len, bl, target)`. -/
structure Sent where
  pkt : PACKET_ZC_ALLY_CHAT
  len : Int
  bl : Int
  target : send_target
deriving DecidableEq, Repr

/-- The body of the loop `for (i = 0; i < MAX_GUILDALLIANCE; i++)` of
`clif_send_guild_alliance_message`: the block id the packet is sent for in
slot `i`, if any. -/
def alliance_slot_target (h : Host) (g : guild) (i : Nat) : Option Int :=
  if (g.alliance i).guild_id ≠ 0 ∧ (g.alliance i).opposition = 0 then
    match h.search (g.alliance i).guild_id with
    | none => none
    | some ag => h.getavailablesd ag
  else none

/-- The packet built by `clif_send_guild_alliance_message` for a message `mes` (as bytes) of
length `len > 0`: the length is capped at `CHAT_SIZE_MAX - sizeof(packet) - 1`, the message is
copied and NUL-terminated. -/
def ally_chat_packet (h : Host) (mes : List Nat) (len : Int) : PACKET_ZC_ALLY_CHAT :=
  -- size_t max_len = CHAT_SIZE_MAX - sizeof(struct PACKET_ZC_ALLY_CHAT) - 1
  let max_len : Nat := wrapU 64 ((h.CHAT_SIZE_MAX : Int) - sizeof_PACKET_ZC_ALLY_CHAT - 1)
  let len1 : Int := if wrapU 64 len > max_len then wrapS 32 max_len else len
  let packet_len : Nat := wrapU 64 ((sizeof_PACKET_ZC_ALLY_CHAT : Int) + len1 + 1)
  { packetType := HEADER_ZC_ALLY_CHAT
    packetLength := wrapS 16 (wrapU 16 packet_len)
    message := mes.take len1.toNat ++ [0] }

/-- Embedding of `clif_send_guild_alliance_message(g, mes, len)`: the calls of
`clif->send`, in order. `mes` is the message as bytes. (The host's `aMalloc` never returns
`NULL`, so the `if (!p) return;` branch is not taken.) -/
def clif_send_guild_alliance_message (h : Host) (g : guild) (mes : List Nat) (len : Int) : List Sent :=
  match h.getavailablesd g with
  | none => []
  | some sd =>
    if len ≤ 0 then []
    else
      { pkt := ally_chat_packet h mes len, len := (ally_chat_packet h mes len).packetLength
        bl := sd, target := .GUILD } ::
        (List.range h.MAX_GUILDALLIANCE).filterMap (fun i =>
          (alliance_slot_target h g i).map (fun allysd =>
            { pkt := ally_chat_packet h mes len, len := (ally_chat_packet h mes len).packetLength
              bl := allysd, target := .GUILD }))

end AllyChat

namespace RodexReturn

/-! ## Rodex return button (`ns_button_rodex_return.c`) -/

def RODEX_RETURN_STATUS_SUCCESS : Nat := 0
def RODEX_RETURN_STATUS_FAILED : Nat := 1

def HEADER_CZ_RODEX_RETURN : Nat := 0x0B98
def HEADER_ZC_RODEX_RETURN_RESULT : Nat := 0x0B99

/-- Mirror of `struct PACKET_ZC_RODEX_RETURN_RESULT`. -/
structure PACKET_ZC_RODEX_RETURN_RESULT where
  packetType : Int
  msgId : Nat
  status : Nat
deriving DecidableEq, Repr

/-- Host: `struct rodex_message`, the field read. -/
structure rodex_message where
  sender_id : Int
deriving DecidableEq, Repr

/-- The part of `struct map_session_data` the plugin reads: `trading` is
`sd->state.trading`, `dead` is `pc_isdead(sd)`, `vending` is `pc_isvending(sd)`. -/
structure map_session_data where
  bl_id : Int
  fd : Int
  char_id : Int
  trading : Bool
  dead : Bool
  vending : Bool
deriving DecidableEq, Repr

/-- Host: the return codes of the `SQL` interface. -/
inductive sql_code where
  | SQL_ERROR
  | SQL_SUCCESS
  | SQL_NO_DATA
deriving DecidableEq, Repr

/-- Host answers during one call of `clif_parse_mail_return_btn`:
`rodex->get_mail`, `map->charid2sd`, the result of the `UPDATE` query, of the
`SELECT` query and of `SQL->NextRow`. -/
structure Host where
  get_mail : map_session_data → Nat → Option rodex_message
  charid2sd : Int → Option map_session_data
  update_query : sql_code
  select_query : sql_code
  next_row : sql_code

/-- The effects of the handler that are visible outside it, in program order. -/
inductive Effect where
  | send (p : PACKET_ZC_RODEX_RETURN_RESULT) (bl : Int) (target : send_target)
  | sql_update_mail (mail_id : Nat) (receiver_id : Int)
  | sql_show_debug
  | rodex_refresh (bl : Int) (open_type : String)
  | rodex_icon (fd : Int) (show_icon : Bool)
  | disp_onlyself (bl : Int) (mes : String)
  | sql_select_char (char_id : Int)
  | rodex_updatemail (bl : Int) (mail_id : Nat) (opentype : Int) (flag : Int)
  | sql_free_result
deriving DecidableEq, Repr

/-- Embedding of `clif_mail_return_result` for a non-null `sd`. -/
def clif_mail_return_result (sd : map_session_data) (mail_id : Nat) (result : Nat) : List Effect :=
  [.send { packetType := HEADER_ZC_RODEX_RETURN_RESULT, msgId := mail_id, status := wrapU 32 result }
    sd.bl_id .SELF]

/-- The block `if (msg->sender_id > 0) { ... }` of `clif_parse_mail_return_btn`. -/
def notify_or_delete (h : Host) (is_auto_del_mail : Bool) (sd : map_session_data) (mail_id : Nat)
    (msg : rodex_message) : List Effect :=
  if msg.sender_id > 0 then
    match (h.charid2sd msg.sender_id).filter (fun snd_sd => decide (snd_sd.fd > 0)) with
    | some snd_sd =>
      [.rodex_refresh snd_sd.bl_id "RODEX_OPENTYPE_RETURN",
       .rodex_refresh snd_sd.bl_id "RODEX_OPENTYPE_UNSET",
       .rodex_icon snd_sd.fd true,
       .disp_onlyself snd_sd.bl_id "You've got a returned mail!"]
    | none =>
      if is_auto_del_mail then
        .sql_select_char msg.sender_id ::
          (if h.select_query = .SQL_ERROR then [.sql_show_debug]
           else
             (if h.next_row ≠ .SQL_SUCCESS then [.rodex_updatemail sd.bl_id mail_id 0 3] else [])
               ++ [.sql_free_result])
      else []
  else []

/-- Embedding of `clif_parse_mail_return_btn(fd)`: `sd` is the session data of
`fd` (`none` for `NULL`), `mail_id` the `msgId` field of the request. -/
def clif_parse_mail_return_btn (h : Host) (is_auto_del_mail : Bool) (sd : Option map_session_data)
    (mail_id : Nat) : List Effect :=
  match sd with
  | none => []
  | some sd =>
    if sd.trading ∨ sd.dead ∨ sd.vending then []
    else if mail_id = 0 then clif_mail_return_result sd mail_id RODEX_RETURN_STATUS_FAILED
    else
      match h.get_mail sd mail_id with
      | none => clif_mail_return_result sd mail_id RODEX_RETURN_STATUS_FAILED
      | some msg =>
        [.sql_update_mail mail_id sd.char_id]
          ++ (if h.update_query = .SQL_ERROR then [.sql_show_debug] else [])
          ++ clif_mail_return_result sd mail_id RODEX_RETURN_STATUS_SUCCESS
          ++ notify_or_delete h is_auto_del_mail sd mail_id msg
          ++ [.rodex_refresh sd.bl_id "RODEX_OPENTYPE_UNSET"]

/-- The `ZC_RODEX_RETURN_RESULT` packets among the effects, in order. -/
def sent_results : List Effect → List PACKET_ZC_RODEX_RETURN_RESULT
  | [] => []
  | .send p _ _ :: rest => p :: sent_results rest
  | _ :: rest => sent_results rest

/-- The mail updates (the `UPDATE` query and `intif->rodex_updatemail`) among the effects. -/
def mail_updates (out : List Effect) : List Effect :=
  out.filter (fun e => match e with
    | .sql_update_mail _ _ => true
    | .rodex_updatemail _ _ _ _ => true
    | _ => false)

end RodexReturn

/-! # Specification-side notions and concrete inputs

The predicates in which the theorems are stated (what the specification calls an active pack,
the reply packets spelled out) and the concrete players, packs and hosts at which the closed
theorems evaluate the embedding. -/

namespace EmoteUI

/-- Battle configuration with the basic-skill check and the dice reshuffle off. -/
def bc_plain : Battle_Config := { basic_skill_check := 0, client_reshuffle_dice := 0 }

/-- A player owning nothing: every register reads 0, the inventory is empty. -/
def sd_fresh : map_session_data :=
  { bl_id := 2000001, fd := 7, emotionlasttime := 0, regs := fun _ => 0, inventory := []
    skill_NV_BASIC := 9, skill_SU_BASIC_SKILL := 0 }

/-- The built-in pack: `packId` 0, free, never on rent, holding `ET_SURPRISE`. -/
def pack_zero : s_emotion_db :=
  { packId := 0, packType := 0, packPrice := 0, sale_start := 0, sale_end := 0, rental_period := 0
    emote_count := 1, emoteIds := [0] }

/-- A character-bound pack 5 costing 3, rented for one day, holding emotions 93 and 94. -/
def pack_five : s_emotion_db :=
  { packId := 5, packType := 0, packPrice := 3, sale_start := 0, sale_end := 0, rental_period := 86400
    emote_count := 2, emoteIds := [93, 94] }

/-- A database holding `pack_zero` and `pack_five` under their pack ids. -/
def db_small : DBMap := [(0, pack_zero), (5, pack_five)]

/-- A player owning `pack_five` until second 5000. -/
def sd_owner : map_session_data :=
  { sd_fresh with regs := fun x => if x = "cashemote_5" then 1 else if x = "cashemoteexpire_5" then 5000 else 0 }

/-- The `ZC_EMOTION_FAIL` send of `clif_send_emote_fail`, spelled out: the packet echoes the
request and goes to the requester only (`SELF`). -/
def emote_fail_to_requester (sd : map_session_data) (packId emoteId : Int) (status : Nat) : Sent :=
  { pkt := .emotion_fail
      { packetType := HEADER_ZC_EMOTION_FAIL
        packId := wrapU 16 packId
        emoteId := wrapU 16 emoteId
        status := status }
    bl := sd.bl_id
    target := .SELF }

/-- The `ZC_EMOTION_EXPANSION_FAIL` send of `clif_send_emote_expansion_fail`, spelled out. -/
def expansion_fail_reply (sd : map_session_data) (packId : Int) (status : Nat) : Sent :=
  { pkt := .expansion_fail
      { packetType := HEADER_ZC_EMOTION_EXPANSION_FAIL
        packId := wrapU 16 packId
        status := status }
    bl := sd.bl_id
    target := .SELF }

/-- The `ZC_EMOTION_EXPANSION_SUCCESS` send of `clif_send_emote_expansion_success`, spelled out. -/
def expansion_success_reply (sd : map_session_data) (packId : Int) (isRented timestamp : Nat) : Sent :=
  { pkt := .expansion_success
      { packetType := HEADER_ZC_EMOTION_EXPANSION_SUCCESS
        packId := wrapU 16 packId
        isRented := isRented
        timestamp := timestamp }
    bl := sd.bl_id
    target := .SELF }

/-- A pack 6 on sale from second 2000 to second 3000, free, not a rental. -/
def pack_six : s_emotion_db :=
  { packId := 6, packType := 1, packPrice := 0, sale_start := 2000, sale_end := 3000
    rental_period := 0, emote_count := 1, emoteIds := [95] }

/-- A database holding `pack_five` and `pack_six`. -/
def db_sale : DBMap := [(5, pack_five), (6, pack_six)]

/-- Number of units of item `item_id` the player holds: the sum of the amounts of the
inventory slots with that `nameid`. -/
def inventory_count (sd : map_session_data) (item_id : Int) : Int :=
  ((sd.inventory.filter (fun it => it.nameid == item_id)).map (fun it => it.amount)).sum

/-- A free pack 7 rented for 10000 days (864000000 seconds). -/
def pack_long : s_emotion_db :=
  { packId := 7, packType := 0, packPrice := 0, sale_start := 0, sale_end := 0
    rental_period := 864000000, emote_count := 1, emoteIds := [96] }

/-- A database holding `pack_long`. -/
def db_long : DBMap := [(7, pack_long)]

/-- A player holding 4 units of item 501 and 10 units of the currency 6909. -/
def sd_rich : map_session_data :=
  { sd_fresh with inventory := [{ nameid := 501, amount := 4 }, { nameid := 6909, amount := 10 }] }

/-- The claim's notion of a pack that is active for the player at time `now`: the
`cashemote_<id>` register is non-zero, and the pack is not a rental or its
`cashemoteexpire_<id>` register is not earlier than `now`. -/
def pack_active (now : Int) (sd : map_session_data) (ce : s_emotion_db) : Bool :=
  decide (sd.regs (var_name ce) ≠ 0) &&
    (decide (ce.rental_period = 0) || decide (now ≤ sd.regs (var_expire ce)))

/-- The list entry the claim describes for a pack: its `packId`, `isRented = 1` exactly for a
rental, and the `cashemoteexpire_<id>` register as a `uint32` timestamp. -/
def pack_list_entry (sd : map_session_data) (ce : s_emotion_db) : PACKET_ZC_EMOTION_EXPANSION_LIST_sub :=
  { packId := ce.packId
    isRented := if ce.rental_period ≠ 0 then 1 else 0
    timestamp := wrapU 32 (sd.regs (var_expire ce)) }

/-- A free, permanent, character-bound pack with the given id and no emotes. -/
def pack_numbered (i : Nat) : s_emotion_db :=
  { packId := i, packType := 0, packPrice := 0, sale_start := 0, sale_end := 0, rental_period := 0
    emote_count := 0, emoteIds := [] }

/-- A database of 101 packs, with ids 0 to 100. -/
def db_many : DBMap := (List.range 101).map (fun (i : Nat) => ((i : Int), pack_numbered i))

/-- A connected player every register of whom reads 1: each pack is owned. -/
def sd_all : map_session_data := { sd_fresh with regs := fun _ => 1 }

/-- A `script->get_constant` that knows the constant `ET_CUSTOM_1` (93) only. -/
def get_constant_custom (name : String) : Option Int :=
  if name = "ET_CUSTOM_1" then some 93 else none

/-- A `mktime` stub; the configurations below have no sale dates, so it is never called. -/
def mktime_unused (_ _ _ : Int) : Int := 0

/-- The configuration group
`{ PackId: 40000, PackType: 0, PackPrice: 0, SaleStart: 0, SaleEnd: 0, RentalPeriod: 0,
EmotesList: ["ET_CUSTOM_1"] }`. -/
def conf_pack_40000 : config_setting_t :=
  { PackId := some 40000, PackType := some 0, PackPrice := some 0, SaleStart := some 0
    SaleEnd := some 0, RentalPeriod := some 0, EmotesList := some [some "ET_CUSTOM_1"] }

/-- The pack built by `emote_db_init` from `conf_pack_40000`. -/
def pack_40000 : s_emotion_db :=
  { packId := 40000, packType := 0, packPrice := 0, sale_start := 0, sale_end := 0
    rental_period := 0, emote_count := 1, emoteIds := [93] }

end EmoteUI

namespace AllyChat

/-- The claim's condition on alliance slot `i`: its `guild_id` is non-zero, its `opposition`
flag is 0, its guild is found and has an available member. -/
def allied_slot (h : Host) (g : guild) (i : Nat) : Bool :=
  decide ((g.alliance i).guild_id ≠ 0) && decide ((g.alliance i).opposition = 0) &&
    (match h.search (g.alliance i).guild_id with
      | none => false
      | some ag => (h.getavailablesd ag).isSome)

/-- A guild 1 whose slot 0 is an alliance with guild 2, slot 1 an opposition to guild 3, slot 2
an alliance with the unknown guild 4; the other slots are empty. -/
def guild_one : guild :=
  { guild_id := 1
    alliance := fun i =>
      if i = 0 then { opposition := 0, guild_id := 2 }
      else if i = 1 then { opposition := 1, guild_id := 3 }
      else if i = 2 then { opposition := 0, guild_id := 4 }
      else { opposition := 0, guild_id := 0 } }

/-- A guild with the given id and no alliance. -/
def guild_plain (id : Int) : guild :=
  { guild_id := id, alliance := fun _ => { opposition := 0, guild_id := 0 } }

/-- A host that knows guilds 2 and 3; a guild's available member has block id 100 + guild id. -/
def host_small : Host :=
  { getavailablesd := fun g => some (100 + g.guild_id)
    search := fun id => if id = 2 ∨ id = 3 then some (guild_plain id) else none
    MAX_GUILDALLIANCE := 16
    CHAT_SIZE_MAX := 256 }

/-- A host like `host_small` where nobody is online. -/
def host_offline : Host := { host_small with getavailablesd := fun _ => none }

end AllyChat

namespace RodexReturn

/-- A mailbox host: mail 7 (sent by character 150001) is in every mailbox, nothing else is;
the sender is offline and every query succeeds. -/
def host_mail : Host :=
  { get_mail := fun _ id => if id = 7 then some { sender_id := 150001 } else none
    charid2sd := fun _ => none
    update_query := .SQL_SUCCESS
    select_query := .SQL_SUCCESS
    next_row := .SQL_SUCCESS }

/-- A player who is neither trading, dead nor vending. -/
def sd_idle : map_session_data :=
  { bl_id := 2000001, fd := 7, char_id := 150000, trading := false, dead := false, vending := false }

/-- The same player while vending. -/
def sd_vending : map_session_data := { sd_idle with vending := true }

/-- The sender of the mail as the handler sees it online: the session data found by
`map->charid2sd(msg->sender_id)` when it exists and has a connection (`fd > 0`). -/
def sender_online (h : Host) (msg : rodex_message) : Option map_session_data :=
  (h.charid2sd msg.sender_id).filter (fun snd_sd => decide (snd_sd.fd > 0))

/-- The calls of `intif->rodex_updatemail` among the effects, in order. -/
def mail_deletes (out : List Effect) : List Effect :=
  out.filter (fun e => match e with
    | .rodex_updatemail _ _ _ _ => true
    | _ => false)

/-- The four notifications the online sender `snd_sd` receives. -/
def sender_notifications (snd_sd : map_session_data) : List Effect :=
  [.rodex_refresh snd_sd.bl_id "RODEX_OPENTYPE_RETURN",
   .rodex_refresh snd_sd.bl_id "RODEX_OPENTYPE_UNSET",
   .rodex_icon snd_sd.fd true,
   .disp_onlyself snd_sd.bl_id "You've got a returned mail!"]

/-- A host like `host_mail` where the character table has no row for the sender. -/
def host_sender_gone : Host := { host_mail with next_row := .SQL_NO_DATA }

/-- A host like `host_mail` where the `SELECT` succeeds but fetching its row fails:
`SQL->NextRow` answers `SQL_ERROR`, so the lookup says nothing about the sender. -/
def host_fetch_error : Host := { host_mail with next_row := .SQL_ERROR }

/-- A host like `host_sender_gone` where the sender is online, on connection 9. -/
def host_sender_online : Host :=
  { host_sender_gone with
    charid2sd := fun id =>
      some { bl_id := 2000002, fd := 9, char_id := id, trading := false, dead := false
             vending := false } }

end RodexReturn

/-! # Theorems -/

namespace EmoteUI

/-! ## Emotion playback: `emote_check_before_use` -/

/-- The headers sent by `clif_send_emote_fail`. -/
theorem sent_headers_emote_fail (sd : map_session_data) (packId emoteId : Int) (st : Nat) :
    sent_headers (clif_send_emote_fail sd packId emoteId st) = [HEADER_ZC_EMOTION_FAIL] := rfl

/-- The headers sent by `clif_send_emote_success`. -/
theorem sent_headers_emote_success (bl : Int) (packId emoteId : Int) :
    sent_headers (clif_send_emote_success bl packId emoteId) = [HEADER_ZC_EMOTION_SUCCESS] := rfl

/-- The success header is not the fail header. -/
theorem success_not_mem_fail : HEADER_ZC_EMOTION_SUCCESS ∉ [HEADER_ZC_EMOTION_FAIL] := by decide

/-- Decision table of `emote_check_before_use`: a `ZC_EMOTION_SUCCESS` is sent exactly when
all checks of the function pass, in the order of the source. -/
theorem emote_check_before_use_success_iff (bc : Battle_Config) (db : DBMap) (now : Int)
    (rnd : Nat) (sd : map_session_data) (packId emoteId : Int) :
    HEADER_ZC_EMOTION_SUCCESS ∈
        sent_headers (emote_check_before_use bc db now rnd sd packId emoteId).2 ↔
      ¬ (bc.basic_skill_check ≠ 0 ∧ sd.skill_NV_BASIC < 2 ∧ sd.skill_SU_BASIC_SKILL < 1) ∧
      emoteId ≠ ET_CHAT_PROHIBIT ∧
      ¬ (sd.emotionlasttime + 1 ≥ now) ∧
      ∃ ce, idb_get db packId = some ce ∧
        emoteId ∈ ce.emoteIds.take ce.emote_count ∧
        (ce.packId ≠ 0 →
          sd.regs (var_name ce) ≠ 0 ∧ ¬ (ce.rental_period ≠ 0 ∧ now > sd.regs (var_expire ce))) := by
  unfold emote_check_before_use
  by_cases h1 : bc.basic_skill_check ≠ 0 ∧ sd.skill_NV_BASIC < 2 ∧ sd.skill_SU_BASIC_SKILL < 1
  · rw [if_pos h1]
    simp only [sent_headers_emote_fail]
    constructor
    · intro h; exact absurd h success_not_mem_fail
    · intro h; exact absurd h1 h.1
  rw [if_neg h1]
  by_cases h2 : emoteId = ET_CHAT_PROHIBIT
  · rw [if_pos h2]
    simp only [sent_headers_emote_fail]
    constructor
    · intro h; exact absurd h success_not_mem_fail
    · intro h; exact absurd h2 h.2.1
  rw [if_neg h2]
  by_cases h3 : sd.emotionlasttime + 1 ≥ now
  · rw [if_pos h3]
    simp only [sent_headers_emote_fail]
    constructor
    · intro h; exact absurd h success_not_mem_fail
    · intro h; exact absurd h3 h.2.2.1
  rw [if_neg h3]
  simp only []
  cases hdb : idb_get db packId with
  | none =>
    simp only [sent_headers_emote_fail]
    constructor
    · intro h; exact absurd h success_not_mem_fail
    · rintro ⟨_, _, _, ce, hce, _⟩; cases hce
  | some ce =>
    simp only []
    by_cases h4 : emoteId ∈ ce.emoteIds.take ce.emote_count
    · rw [if_neg (not_not.mpr h4)]
      by_cases h5 : ce.packId ≠ 0
      · rw [if_pos h5]
        by_cases h6 : sd.regs (var_name ce) = 0
        · rw [if_pos (by simpa [pc_readglobalreg] using h6)]
          simp only [sent_headers_emote_fail]
          constructor
          · intro h; exact absurd h success_not_mem_fail
          · rintro ⟨_, _, _, ce', hce, _, hown⟩
            cases hce
            exact absurd h6 (hown h5).1
        · rw [if_neg (by simpa [pc_readglobalreg] using h6)]
          by_cases h7 : ce.rental_period ≠ 0 ∧ now > sd.regs (var_expire ce)
          · rw [if_pos (by simpa [pc_readglobalreg] using h7)]
            simp only [sent_headers_emote_fail]
            constructor
            · intro h; exact absurd h success_not_mem_fail
            · rintro ⟨_, _, _, ce', hce, _, hown⟩
              cases hce
              exact absurd h7 (hown h5).2
          · rw [if_neg (by simpa [pc_readglobalreg] using h7)]
            simp only [sent_headers_emote_success, List.mem_singleton, true_iff]
            exact ⟨h1, h2, h3, ce, rfl, h4, fun _ => ⟨h6, h7⟩⟩
      · rw [if_neg h5]
        simp only [sent_headers_emote_success, List.mem_singleton, true_iff]
        exact ⟨h1, h2, h3, ce, rfl, h4, fun h => absurd h h5⟩
    · rw [if_pos h4]
      simp only [sent_headers_emote_fail]
      constructor
      · intro h; exact absurd h success_not_mem_fail
      · rintro ⟨_, _, _, ce', hce, hin, _⟩
        cases hce
        exact absurd hin h4

/-- C1 (as amended): `emote_check_before_use` sends a `ZC_EMOTION_SUCCESS` packet only if the
requested pack is in the database and either its `packId` is 0 (the pack the code exempts from
the ownership check) or the player owns it (the `cashemote_<id>` register is non-zero) and it is
active (it is not a rental, or the current time is not later than `cashemoteexpire_<id>`). -/
theorem emote_use_success_requires_entitlement (bc : Battle_Config) (db : DBMap) (now : Int)
    (rnd : Nat) (sd : map_session_data) (packId emoteId : Int)
    (h : HEADER_ZC_EMOTION_SUCCESS ∈
      sent_headers (emote_check_before_use bc db now rnd sd packId emoteId).2) :
    ∃ ce, idb_get db packId = some ce ∧
      (ce.packId = 0 ∨
        (pc_readglobalreg sd (var_name ce) ≠ 0 ∧
          (ce.rental_period = 0 ∨ now ≤ pc_readglobalreg sd (var_expire ce)))) := by
  obtain ⟨_, _, _, ce, hce, _, hown⟩ := (emote_check_before_use_success_iff _ _ _ _ _ _ _).mp h
  refine ⟨ce, hce, ?_⟩
  by_cases h0 : ce.packId = 0
  · exact Or.inl h0
  · right
    obtain ⟨hflag, hexp⟩ := hown h0
    refine ⟨hflag, ?_⟩
    by_cases hr : ce.rental_period = 0
    · exact Or.inl hr
    · right
      have hle : ¬ now > sd.regs (var_expire ce) := fun hn => hexp ⟨hr, hn⟩
      simp only [pc_readglobalreg]
      omega

/-- Witness of C1: the owner of the rented pack 5 plays emotion 93 at second 1000. -/
theorem emote_use_success_requires_entitlement_witness :
    HEADER_ZC_EMOTION_SUCCESS ∈
        sent_headers (emote_check_before_use bc_plain db_small 1000 0 sd_owner 5 93).2 ∧
      ∃ ce, idb_get db_small 5 = some ce ∧
        (ce.packId = 0 ∨
          (pc_readglobalreg sd_owner (var_name ce) ≠ 0 ∧
            (ce.rental_period = 0 ∨ (1000 : Int) ≤ pc_readglobalreg sd_owner (var_expire ce)))) :=
  ⟨by decide, emote_use_success_requires_entitlement bc_plain db_small 1000 0 sd_owner 5 93 (by decide)⟩

/-- Counterexample to C1 as stated: a player who owns nothing requests emotion 0 of pack 0;
`ZC_EMOTION_SUCCESS` is sent although the `cashemote_0` register is 0. -/
theorem emote_use_pack_zero_needs_no_ownership :
    HEADER_ZC_EMOTION_SUCCESS ∈
        sent_headers (emote_check_before_use bc_plain db_small 1000 0 sd_fresh 0 0).2 ∧
      idb_get db_small 0 = some pack_zero ∧
      ¬ (pc_readglobalreg sd_fresh (var_name pack_zero) ≠ 0 ∧
          (pack_zero.rental_period = 0 ∨
            (1000 : Int) ≤ pc_readglobalreg sd_fresh (var_expire pack_zero))) := by
  decide

/-- When the pack is missing or does not hold the emotion, the only packet sent is one
`ZC_EMOTION_FAIL` to the requester, with status `USE_FAIL_SKILL_LEVEL` or `USE_FAIL_UNKNOWN`. -/
theorem emote_check_before_use_not_found (bc : Battle_Config) (db : DBMap) (now : Int)
    (rnd : Nat) (sd : map_session_data) (packId emoteId : Int)
    (hmiss : ∀ ce, idb_get db packId = some ce → emoteId ∉ ce.emoteIds.take ce.emote_count) :
    ∃ status, (status = EMSG_EMOTION_USE_FAIL_SKILL_LEVEL ∨
        status = EMSG_EMOTION_EXPANSION_USE_FAIL_UNKNOWN) ∧
      (emote_check_before_use bc db now rnd sd packId emoteId).2 =
        [emote_fail_to_requester sd packId emoteId status] := by
  unfold emote_check_before_use
  by_cases h1 : bc.basic_skill_check ≠ 0 ∧ sd.skill_NV_BASIC < 2 ∧ sd.skill_SU_BASIC_SKILL < 1
  · rw [if_pos h1]
    exact ⟨_, Or.inl rfl, rfl⟩
  rw [if_neg h1]
  by_cases h2 : emoteId = ET_CHAT_PROHIBIT
  · rw [if_pos h2]
    exact ⟨_, Or.inr rfl, rfl⟩
  rw [if_neg h2]
  by_cases h3 : sd.emotionlasttime + 1 ≥ now
  · rw [if_pos h3]
    exact ⟨_, Or.inr rfl, rfl⟩
  rw [if_neg h3]
  simp only []
  cases hdb : idb_get db packId with
  | none => exact ⟨_, Or.inr rfl, rfl⟩
  | some ce =>
    simp only []
    rw [if_pos (hmiss ce hdb)]
    exact ⟨_, Or.inr rfl, rfl⟩

/-- C2: `emote_check_before_use` sends a `ZC_EMOTION_SUCCESS` only if the database has an entry
for `packId` and the requested `emoteId` is among the first `emote_count` values of its
`emoteIds`; if the pack is missing or the emotion is not in it, the only packet sent is a
`ZC_EMOTION_FAIL` to the requester. -/
theorem emote_use_requires_pack_and_emote (bc : Battle_Config) (db : DBMap) (now : Int)
    (rnd : Nat) (sd : map_session_data) (packId emoteId : Int) :
    (HEADER_ZC_EMOTION_SUCCESS ∈
        sent_headers (emote_check_before_use bc db now rnd sd packId emoteId).2 →
      ∃ ce, idb_get db packId = some ce ∧ emoteId ∈ ce.emoteIds.take ce.emote_count) ∧
    ((idb_get db packId = none ∨
        ∃ ce, idb_get db packId = some ce ∧ emoteId ∉ ce.emoteIds.take ce.emote_count) →
      ∃ status, (emote_check_before_use bc db now rnd sd packId emoteId).2 =
        [emote_fail_to_requester sd packId emoteId status]) := by
  constructor
  · intro h
    obtain ⟨_, _, _, ce, hce, hin, _⟩ := (emote_check_before_use_success_iff _ _ _ _ _ _ _).mp h
    exact ⟨ce, hce, hin⟩
  · intro h
    have hmiss : ∀ ce, idb_get db packId = some ce → emoteId ∉ ce.emoteIds.take ce.emote_count := by
      intro ce hce
      rcases h with hn | ⟨ce', hce', hnot⟩
      · rw [hn] at hce; cases hce
      · rw [hce'] at hce; cases hce; exact hnot
    obtain ⟨status, _, hout⟩ := emote_check_before_use_not_found bc db now rnd sd packId emoteId hmiss
    exact ⟨status, hout⟩

/-- Witness of C2: the owner plays emotion 93 of pack 5 (success, the emotion is in the pack);
a request for the unknown pack 9 and one for emotion 7, which pack 5 does not hold, each get a
single `ZC_EMOTION_FAIL`. -/
theorem emote_use_requires_pack_and_emote_witness :
    (∃ ce, idb_get db_small 5 = some ce ∧ (93 : Int) ∈ ce.emoteIds.take ce.emote_count) ∧
    idb_get db_small 9 = none ∧
    (∃ status, (emote_check_before_use bc_plain db_small 1000 0 sd_owner 9 93).2 =
      [emote_fail_to_requester sd_owner 9 93 status]) ∧
    (∃ status, (emote_check_before_use bc_plain db_small 1000 0 sd_owner 5 7).2 =
      [emote_fail_to_requester sd_owner 5 7 status]) :=
  ⟨(emote_use_requires_pack_and_emote bc_plain db_small 1000 0 sd_owner 5 93).1 (by decide),
   by decide,
   (emote_use_requires_pack_and_emote bc_plain db_small 1000 0 sd_owner 9 93).2
     (Or.inl (by decide)),
   (emote_use_requires_pack_and_emote bc_plain db_small 1000 0 sd_owner 5 7).2
     (Or.inr ⟨pack_five, by decide, by decide⟩)⟩

/-! ## Pack purchase: `emote_expansion_purchase` -/

/-- The headers sent by `clif_send_emote_expansion_fail`. -/
theorem sent_headers_expansion_fail (sd : map_session_data) (packId : Int) (st : Nat) :
    sent_headers (clif_send_emote_expansion_fail sd packId st) =
      [HEADER_ZC_EMOTION_EXPANSION_FAIL] := rfl

/-- The headers sent by `clif_send_emote_expansion_success`. -/
theorem sent_headers_expansion_success (sd : map_session_data) (packId r : Int) (t : Nat) :
    sent_headers (clif_send_emote_expansion_success sd packId r t) =
      [HEADER_ZC_EMOTION_EXPANSION_SUCCESS] := rfl

/-- The purchase-success header is not the purchase-fail header. -/
theorem expansion_success_not_mem_fail :
    HEADER_ZC_EMOTION_EXPANSION_SUCCESS ∉ [HEADER_ZC_EMOTION_EXPANSION_FAIL] := by decide

/-- The part of `emote_expansion_purchase` that runs once the currency-item, basic-skill,
pack-existence and price checks have passed. -/
theorem emote_expansion_purchase_after_checks (bc : Battle_Config) (db : DBMap) (now : Int)
    (sd : map_session_data) (packId itemId amount : Int) (ce : s_emotion_db)
    (hitem : itemId = UI_CURRENCY_ID)
    (hskill : ¬ (bc.basic_skill_check ≠ 0 ∧ sd.skill_NV_BASIC < 2 ∧ sd.skill_SU_BASIC_SKILL < 1))
    (hdb : idb_get db packId = some ce)
    (hprice : amount = (ce.packPrice : Int)) :
    emote_expansion_purchase bc db now sd packId itemId amount =
      if ce.sale_start ≠ 0 ∧ ce.sale_start > now then
        (sd, clif_send_emote_expansion_fail sd packId EMSG_NOT_YET_SALE_START_TIME)
      else if ce.sale_end ≠ 0 ∧ ce.sale_end < now then
        (sd, clif_send_emote_expansion_fail sd packId EMSG_EMOTION_EXPANSION_FAIL_DATE)
      else if pc_readglobalreg sd (var_name ce) ≠ 0 then
        (sd, clif_send_emote_expansion_fail sd packId EMSG_EMOTION_EXPANSION_FAIL_ALREADY_BUY)
      else
        match pay_currency sd itemId amount with
        | none => (sd, clif_send_emote_expansion_fail sd packId EMSG_EMOTION_EXPANSION_NOT_ENOUGH_NYANGVINE)
        | some sd1 =>
          if ce.rental_period ≠ 0 then
            (pc_setglobalreg (pc_setglobalreg sd1 (var_name ce) 1) (var_expire ce)
                (wrapS 32 (wrapU 64 (now + (ce.rental_period : Int)))),
              clif_send_emote_expansion_success
                (pc_setglobalreg (pc_setglobalreg sd1 (var_name ce) 1) (var_expire ce)
                  (wrapS 32 (wrapU 64 (now + (ce.rental_period : Int)))))
                packId 1 (wrapU 32 (wrapU 64 (now + (ce.rental_period : Int)))))
          else
            (pc_setglobalreg sd1 (var_name ce) 1,
              clif_send_emote_expansion_success (pc_setglobalreg sd1 (var_name ce) 1) packId 0 0) := by
  unfold emote_expansion_purchase
  rw [if_neg (not_not.mpr hitem), if_neg hskill, hdb]
  simp only []
  rw [if_neg (not_not.mpr hprice)]

/-- C3: for a purchase request that passes the currency-item, basic-skill, pack-existence and
price checks: if `sale_start` is non-zero and later than the current time the reply is
`ZC_EMOTION_EXPANSION_FAIL` with `EMSG_NOT_YET_SALE_START_TIME`; otherwise if `sale_end` is
non-zero and earlier than the current time the reply is `EMSG_EMOTION_EXPANSION_FAIL_DATE`;
hence no `ZC_EMOTION_EXPANSION_SUCCESS` is sent outside the sale window (a zero bound meaning
unbounded on that side). -/
theorem purchase_respects_sale_window (bc : Battle_Config) (db : DBMap) (now : Int)
    (sd : map_session_data) (packId itemId amount : Int) (ce : s_emotion_db)
    (hitem : itemId = UI_CURRENCY_ID)
    (hskill : ¬ (bc.basic_skill_check ≠ 0 ∧ sd.skill_NV_BASIC < 2 ∧ sd.skill_SU_BASIC_SKILL < 1))
    (hdb : idb_get db packId = some ce)
    (hprice : amount = (ce.packPrice : Int)) :
    ((ce.sale_start ≠ 0 ∧ ce.sale_start > now) →
      emote_expansion_purchase bc db now sd packId itemId amount =
        (sd, [expansion_fail_reply sd packId EMSG_NOT_YET_SALE_START_TIME])) ∧
    (¬ (ce.sale_start ≠ 0 ∧ ce.sale_start > now) → (ce.sale_end ≠ 0 ∧ ce.sale_end < now) →
      emote_expansion_purchase bc db now sd packId itemId amount =
        (sd, [expansion_fail_reply sd packId EMSG_EMOTION_EXPANSION_FAIL_DATE])) ∧
    (HEADER_ZC_EMOTION_EXPANSION_SUCCESS ∈
        sent_headers (emote_expansion_purchase bc db now sd packId itemId amount).2 →
      (ce.sale_start = 0 ∨ ce.sale_start ≤ now) ∧ (ce.sale_end = 0 ∨ now ≤ ce.sale_end)) := by
  rw [emote_expansion_purchase_after_checks bc db now sd packId itemId amount ce hitem hskill hdb hprice]
  refine ⟨?_, ?_, ?_⟩
  · intro h
    rw [if_pos h]
    rfl
  · intro h1 h2
    rw [if_neg h1, if_pos h2]
    rfl
  · intro h
    by_cases h1 : ce.sale_start ≠ 0 ∧ ce.sale_start > now
    · rw [if_pos h1, sent_headers_expansion_fail] at h
      exact absurd h expansion_success_not_mem_fail
    by_cases h2 : ce.sale_end ≠ 0 ∧ ce.sale_end < now
    · rw [if_neg h1, if_pos h2, sent_headers_expansion_fail] at h
      exact absurd h expansion_success_not_mem_fail
    constructor
    · by_cases hs : ce.sale_start = 0
      · exact Or.inl hs
      · right
        have : ¬ ce.sale_start > now := fun hn => h1 ⟨hs, hn⟩
        omega
    · by_cases hs : ce.sale_end = 0
      · exact Or.inl hs
      · right
        have : ¬ ce.sale_end < now := fun hn => h2 ⟨hs, hn⟩
        omega

/-- Witness of C3: pack 6 is on sale from second 2000 to second 3000 and free; a request at
second 1000 is answered `NOT_YET_SALE_START_TIME`, one at second 4000 is answered `FAIL_DATE`. -/
theorem purchase_respects_sale_window_witness :
    emote_expansion_purchase bc_plain db_sale 1000 sd_fresh 6 6909 0 =
        (sd_fresh, [expansion_fail_reply sd_fresh 6 EMSG_NOT_YET_SALE_START_TIME]) ∧
    emote_expansion_purchase bc_plain db_sale 4000 sd_fresh 6 6909 0 =
        (sd_fresh, [expansion_fail_reply sd_fresh 6 EMSG_EMOTION_EXPANSION_FAIL_DATE]) ∧
    HEADER_ZC_EMOTION_EXPANSION_SUCCESS ∈
        sent_headers (emote_expansion_purchase bc_plain db_sale 2500 sd_fresh 6 6909 0).2 ∧
    (pack_six.sale_start = 0 ∨ pack_six.sale_start ≤ 2500) ∧
    (pack_six.sale_end = 0 ∨ (2500 : Int) ≤ pack_six.sale_end) :=
  ⟨(purchase_respects_sale_window bc_plain db_sale 1000 sd_fresh 6 6909 0 pack_six
      (by decide) (by decide) (by decide) (by decide)).1 (by decide),
   (purchase_respects_sale_window bc_plain db_sale 4000 sd_fresh 6 6909 0 pack_six
      (by decide) (by decide) (by decide) (by decide)).2.1 (by decide) (by decide),
   by decide,
   (purchase_respects_sale_window bc_plain db_sale 2500 sd_fresh 6 6909 0 pack_six
      (by decide) (by decide) (by decide) (by decide)).2.2 (by decide)⟩

/-- A value that fits in `w` unsigned bits is unchanged by `wrapU w`. -/
theorem wrapU_of_lt (w : Nat) (x : Int) (h0 : 0 ≤ x) (h : x < (2 : Int) ^ w) :
    (wrapU w x : Int) = x := by
  unfold wrapU
  rw [Int.emod_eq_of_lt h0 h]
  exact Int.toNat_of_nonneg h0

/-- A non-negative value below `2 ^ (w - 1)` is unchanged by `wrapS w`. -/
theorem wrapS_of_lt (w : Nat) (x : Int) (h0 : 0 ≤ x) (h : x < (2 : Int) ^ (w - 1)) :
    wrapS w x = x := by
  unfold wrapS
  have hw : (2 : Int) ^ (w - 1) ≤ (2 : Int) ^ w :=
    pow_le_pow_right₀ (by norm_num) (Nat.sub_le w 1)
  rw [Int.emod_eq_of_lt h0 (lt_of_lt_of_le h hw), if_pos h]

/-- An ownership register name never coincides with an expiry register name. -/
theorem var_name_ne_var_expire (a b : s_emotion_db) : var_name a ≠ var_expire b := by
  unfold var_name var_expire
  intro h
  have h2 := congrArg String.data h
  simp only [String.data_append] at h2
  split_ifs at h2 <;> simp at h2

/-- Effect of overwriting one inventory slot on the number of units of an item. -/
theorem count_set (inv : List item) (n : Nat) (it it2 : item) (id : Int)
    (h : inv.get? n = some it) :
    (((inv.set n it2).filter (fun x => x.nameid == id)).map (fun x => x.amount)).sum =
      ((inv.filter (fun x => x.nameid == id)).map (fun x => x.amount)).sum
        - (if it.nameid = id then it.amount else 0) + (if it2.nameid = id then it2.amount else 0) := by
  induction inv generalizing n with
  | nil => simp at h
  | cons a rest ih =>
    cases n with
    | zero =>
      simp only [List.get?_cons_zero, Option.some.injEq] at h
      subst h
      simp only [List.set_cons_zero, List.filter_cons, beq_iff_eq]
      by_cases h1 : a.nameid = id <;> by_cases h2 : it2.nameid = id <;>
        simp only [h1, h2, if_true, if_false, List.map_cons, List.sum_cons] <;> omega
    | succ m =>
      simp only [List.get?_cons_succ] at h
      simp only [List.set_cons_succ, List.filter_cons, beq_iff_eq]
      by_cases h1 : a.nameid = id
      · simp only [h1, if_true, List.map_cons, List.sum_cons, ih m h]
        omega
      · simp only [h1, if_false, ih m h]

/-- A slot found by `pc_search_inventory` exists and holds the item searched for. -/
theorem pc_search_inventory_some (sd : map_session_data) (id : Int) (idx : Nat)
    (h : pc_search_inventory sd id = some idx) :
    ∃ it, sd.inventory.get? idx = some it ∧ it.nameid = id ∧ (it.amount > 0 ∨ id = 0) := by
  unfold pc_search_inventory at h
  simp only [] at h
  split_ifs at h with hlt
  cases h
  refine ⟨sd.inventory[List.findIdx _ sd.inventory], ?_, ?_⟩
  · rw [List.get?_eq_getElem?, List.getElem?_eq_getElem hlt]
  · have := List.findIdx_getElem (w := hlt)
    simpa using this

/-- A successful `pay_currency` leaves the registers alone and removes exactly `amount` units
of `itemId` from the inventory, no unit of any other item. -/
theorem pay_currency_some (sd sd1 : map_session_data) (itemId amount : Int)
    (hid : itemId ≠ 0) (hamt : 0 ≤ amount)
    (h : pay_currency sd itemId amount = some sd1) :
    sd1.regs = sd.regs ∧ sd1.bl_id = sd.bl_id ∧
      ∀ id, inventory_count sd1 id = inventory_count sd id - (if id = itemId then amount else 0) := by
  unfold pay_currency at h
  by_cases hpos : amount > 0
  · rw [if_pos hpos] at h
    cases hs : pc_search_inventory sd itemId with
    | none => rw [hs] at h; cases h
    | some idx =>
      rw [hs] at h
      simp only [] at h
      obtain ⟨it, hget, hname, _⟩ := pc_search_inventory_some sd itemId idx hs
      rw [hget] at h
      simp only [Option.map_some', Option.getD_some] at h
      by_cases hlt : it.amount < amount
      · rw [if_pos hlt] at h; cases h
      · rw [if_neg hlt] at h
        simp only [Option.some.injEq] at h
        subst h
        unfold pc_delitem
        rw [hget]
        simp only []
        have hguard : ¬ (it.nameid = 0 ∨ amount ≤ 0 ∨ it.amount < amount) := by
          rintro (h0 | h0 | h0)
          · exact hid (hname ▸ h0)
          · omega
          · exact hlt h0
        rw [if_neg hguard]
        by_cases hz : it.amount - amount ≤ 0
        · rw [if_pos hz]
          refine ⟨rfl, rfl, fun id => ?_⟩
          unfold inventory_count
          simp only []
          rw [count_set sd.inventory idx it _ id hget]
          rw [hname]
          by_cases h1 : itemId = id
          · have h2 : ¬ (0 : Int) = id := fun h0 => hid (h1.trans h0.symm)
            simp only [h1, h2, if_true, if_false]
            omega
          · have h3 : ¬ id = itemId := fun h0 => h1 h0.symm
            simp only [h1, h3, if_false]
            split_ifs <;> omega
        · rw [if_neg hz]
          refine ⟨rfl, rfl, fun id => ?_⟩
          unfold inventory_count
          simp only []
          rw [count_set sd.inventory idx it _ id hget]
          simp only [hname]
          by_cases h1 : itemId = id
          · simp only [h1, if_true]
            omega
          · have h3 : ¬ id = itemId := fun h0 => h1 h0.symm
            simp only [h1, h3, if_false]
            omega
  · rw [if_neg hpos] at h
    simp only [Option.some.injEq] at h
    subst h
    refine ⟨rfl, rfl, fun id => ?_⟩
    have : amount = 0 := by omega
    subst this
    simp

/-- Decision table of `emote_expansion_purchase`: a `ZC_EMOTION_EXPANSION_SUCCESS` is sent
exactly when all checks of the function pass. -/
theorem emote_expansion_purchase_success_iff (bc : Battle_Config) (db : DBMap) (now : Int)
    (sd : map_session_data) (packId itemId amount : Int) :
    HEADER_ZC_EMOTION_EXPANSION_SUCCESS ∈
        sent_headers (emote_expansion_purchase bc db now sd packId itemId amount).2 ↔
      itemId = UI_CURRENCY_ID ∧
      ¬ (bc.basic_skill_check ≠ 0 ∧ sd.skill_NV_BASIC < 2 ∧ sd.skill_SU_BASIC_SKILL < 1) ∧
      ∃ ce, idb_get db packId = some ce ∧ amount = (ce.packPrice : Int) ∧
        ¬ (ce.sale_start ≠ 0 ∧ ce.sale_start > now) ∧
        ¬ (ce.sale_end ≠ 0 ∧ ce.sale_end < now) ∧
        sd.regs (var_name ce) = 0 ∧
        ∃ sd1, pay_currency sd itemId amount = some sd1 := by
  by_cases h1 : itemId = UI_CURRENCY_ID
  swap
  · unfold emote_expansion_purchase
    rw [if_pos h1, sent_headers_expansion_fail]
    exact ⟨fun h => absurd h expansion_success_not_mem_fail, fun h => absurd h.1 h1⟩
  by_cases h2 : bc.basic_skill_check ≠ 0 ∧ sd.skill_NV_BASIC < 2 ∧ sd.skill_SU_BASIC_SKILL < 1
  · unfold emote_expansion_purchase
    rw [if_neg (not_not.mpr h1), if_pos h2, sent_headers_expansion_fail]
    exact ⟨fun h => absurd h expansion_success_not_mem_fail, fun h => absurd h2 h.2.1⟩
  cases hdb : idb_get db packId with
  | none =>
    unfold emote_expansion_purchase
    rw [if_neg (not_not.mpr h1), if_neg h2, hdb]
    simp only [sent_headers_expansion_fail]
    refine ⟨fun h => absurd h expansion_success_not_mem_fail, ?_⟩
    rintro ⟨_, _, ce, hce, _⟩
    cases hce
  | some ce =>
    by_cases h3 : amount = (ce.packPrice : Int)
    swap
    · unfold emote_expansion_purchase
      rw [if_neg (not_not.mpr h1), if_neg h2, hdb]
      simp only []
      rw [if_pos h3, sent_headers_expansion_fail]
      refine ⟨fun h => absurd h expansion_success_not_mem_fail, ?_⟩
      rintro ⟨_, _, ce', hce, hp, _⟩
      cases hce
      exact absurd hp h3
    rw [emote_expansion_purchase_after_checks bc db now sd packId itemId amount ce h1 h2 hdb h3]
    by_cases h4 : ce.sale_start ≠ 0 ∧ ce.sale_start > now
    · rw [if_pos h4, sent_headers_expansion_fail]
      refine ⟨fun h => absurd h expansion_success_not_mem_fail, ?_⟩
      rintro ⟨_, _, ce', hce, _, hs, _⟩
      cases hce
      exact absurd h4 hs
    rw [if_neg h4]
    by_cases h5 : ce.sale_end ≠ 0 ∧ ce.sale_end < now
    · rw [if_pos h5, sent_headers_expansion_fail]
      refine ⟨fun h => absurd h expansion_success_not_mem_fail, ?_⟩
      rintro ⟨_, _, ce', hce, _, _, hs, _⟩
      cases hce
      exact absurd h5 hs
    rw [if_neg h5]
    by_cases h6 : sd.regs (var_name ce) = 0
    swap
    · rw [if_pos (by simpa [pc_readglobalreg] using h6), sent_headers_expansion_fail]
      refine ⟨fun h => absurd h expansion_success_not_mem_fail, ?_⟩
      rintro ⟨_, _, ce', hce, _, _, _, hs, _⟩
      cases hce
      exact absurd hs h6
    rw [if_neg (by simpa [pc_readglobalreg] using h6)]
    cases hpay : pay_currency sd itemId amount with
    | none =>
      simp only [sent_headers_expansion_fail]
      refine ⟨fun h => absurd h expansion_success_not_mem_fail, ?_⟩
      rintro ⟨_, _, ce', hce, _, _, _, _, sd1, hs⟩
      cases hs
    | some sd1 =>
      simp only []
      have hsucc : HEADER_ZC_EMOTION_EXPANSION_SUCCESS ∈ [HEADER_ZC_EMOTION_EXPANSION_SUCCESS] :=
        List.mem_singleton.mpr rfl
      by_cases h7 : ce.rental_period ≠ 0
      · rw [if_pos h7, sent_headers_expansion_success]
        exact ⟨fun _ => ⟨h1, h2, ce, rfl, h3, h4, h5, h6, sd1, rfl⟩, fun _ => hsucc⟩
      · rw [if_neg h7, sent_headers_expansion_success]
        exact ⟨fun _ => ⟨h1, h2, ce, rfl, h3, h4, h5, h6, sd1, rfl⟩, fun _ => hsucc⟩

/-- C4 (as amended): whenever `emote_expansion_purchase` replies `ZC_EMOTION_EXPANSION_SUCCESS`
for a pack with price `p` and rental period `r` at time `now`: exactly `p` units of the currency
item (and of no other item) have left the inventory, the `cashemote_<id>` register is 1, and
(a) if `r` is non-zero the packet has `isRented = 1`, its timestamp is `now + r` reduced to 32
unsigned bits and the `cashemoteexpire_<id>` register is `now + r` reduced to a signed 32-bit
value, both being `now + r` itself when `0 ≤ now + r < 2 ^ 31`; (b) if `r` is zero the expiry
register is unchanged and the packet has `isRented = 0` and `timestamp = 0`. -/
theorem purchase_success_effects (bc : Battle_Config) (db : DBMap) (now : Int)
    (sd : map_session_data) (packId itemId amount : Int)
    (h : HEADER_ZC_EMOTION_EXPANSION_SUCCESS ∈
      sent_headers (emote_expansion_purchase bc db now sd packId itemId amount).2) :
    ∃ ce, idb_get db packId = some ce ∧
      (∀ id, inventory_count (emote_expansion_purchase bc db now sd packId itemId amount).1 id =
        inventory_count sd id - (if id = UI_CURRENCY_ID then (ce.packPrice : Int) else 0)) ∧
      (emote_expansion_purchase bc db now sd packId itemId amount).1.regs (var_name ce) = 1 ∧
      (ce.rental_period ≠ 0 →
        (emote_expansion_purchase bc db now sd packId itemId amount).1.regs (var_expire ce) =
            wrapS 32 (wrapU 64 (now + (ce.rental_period : Int))) ∧
        (emote_expansion_purchase bc db now sd packId itemId amount).2 =
            [expansion_success_reply sd packId 1 (wrapU 32 (wrapU 64 (now + (ce.rental_period : Int))))] ∧
        (0 ≤ now + (ce.rental_period : Int) → now + (ce.rental_period : Int) < 2 ^ 31 →
          (emote_expansion_purchase bc db now sd packId itemId amount).1.regs (var_expire ce) =
              now + (ce.rental_period : Int) ∧
          (emote_expansion_purchase bc db now sd packId itemId amount).2 =
              [expansion_success_reply sd packId 1 (now + (ce.rental_period : Int)).toNat])) ∧
      (ce.rental_period = 0 →
        (emote_expansion_purchase bc db now sd packId itemId amount).1.regs (var_expire ce) =
            sd.regs (var_expire ce) ∧
        (emote_expansion_purchase bc db now sd packId itemId amount).2 =
            [expansion_success_reply sd packId 0 0]) := by
  obtain ⟨h1, h2, ce, hdb, h3, h4, h5, h6, sd1, hpay⟩ :=
    (emote_expansion_purchase_success_iff bc db now sd packId itemId amount).mp h
  refine ⟨ce, hdb, ?_⟩
  rw [emote_expansion_purchase_after_checks bc db now sd packId itemId amount ce h1 h2 hdb h3,
    if_neg h4, if_neg h5, if_neg (by simpa [pc_readglobalreg] using h6), hpay]
  simp only []
  have hid : itemId ≠ 0 := by rw [h1]; decide
  have hamt : 0 ≤ amount := by rw [h3]; exact Int.natCast_nonneg _
  obtain ⟨hregs, hbl, hcount⟩ := pay_currency_some sd sd1 itemId amount hid hamt hpay
  have hne : var_name ce ≠ var_expire ce := var_name_ne_var_expire ce ce
  by_cases hr : ce.rental_period ≠ 0
  · rw [if_pos hr]
    refine ⟨?_, ?_, ?_, fun h0 => absurd h0 hr⟩
    · intro id
      have := hcount id
      rw [h1, h3] at this
      exact this
    · simp only [pc_setglobalreg, if_neg hne, if_true]
    · intro _
      have hexp : (pc_setglobalreg (pc_setglobalreg sd1 (var_name ce) 1) (var_expire ce)
          (wrapS 32 (wrapU 64 (now + (ce.rental_period : Int))))).regs (var_expire ce) =
          wrapS 32 (wrapU 64 (now + (ce.rental_period : Int))) := by
        simp only [pc_setglobalreg, if_true]
      have hout : clif_send_emote_expansion_success
          (pc_setglobalreg (pc_setglobalreg sd1 (var_name ce) 1) (var_expire ce)
            (wrapS 32 (wrapU 64 (now + (ce.rental_period : Int))))) packId 1
            (wrapU 32 (wrapU 64 (now + (ce.rental_period : Int)))) =
          [expansion_success_reply sd packId 1 (wrapU 32 (wrapU 64 (now + (ce.rental_period : Int))))] := by
        simp only [clif_send_emote_expansion_success, expansion_success_reply, pc_setglobalreg, hbl]
        rfl
      refine ⟨hexp, hout, ?_⟩
      intro hlo hhi
      have h64 : (wrapU 64 (now + (ce.rental_period : Int)) : Int) = now + (ce.rental_period : Int) :=
        wrapU_of_lt 64 _ hlo (lt_trans hhi (by norm_num))
      have h32 : wrapU 32 (wrapU 64 (now + (ce.rental_period : Int))) =
          (now + (ce.rental_period : Int)).toNat := by
        rw [h64]
        have := wrapU_of_lt 32 (now + (ce.rental_period : Int)) hlo (lt_trans hhi (by norm_num))
        omega
      rw [hexp, hout, h32, h64]
      exact ⟨wrapS_of_lt 32 _ hlo (by simpa using hhi), rfl⟩
  · rw [if_neg hr]
    refine ⟨?_, ?_, fun h0 => absurd h0 hr, ?_⟩
    · intro id
      have := hcount id
      rw [h1, h3] at this
      exact this
    · simp only [pc_setglobalreg, if_true]
    · intro _
      constructor
      · simp only [pc_setglobalreg, if_neg (Ne.symm hne), hregs]
      · simp only [clif_send_emote_expansion_success, expansion_success_reply, pc_setglobalreg, hbl]
        rfl

/-- Witness of C4: a player holding 10 units of the currency buys pack 5 (price 3, one day of
rent) at second 1000. -/
theorem purchase_success_effects_witness :
    ∃ ce, idb_get db_small 5 = some ce ∧
      (∀ id, inventory_count (emote_expansion_purchase bc_plain db_small 1000 sd_rich 5 6909 3).1 id =
        inventory_count sd_rich id - (if id = UI_CURRENCY_ID then (ce.packPrice : Int) else 0)) ∧
      (emote_expansion_purchase bc_plain db_small 1000 sd_rich 5 6909 3).1.regs (var_name ce) = 1 ∧
      (ce.rental_period ≠ 0 →
        (emote_expansion_purchase bc_plain db_small 1000 sd_rich 5 6909 3).1.regs (var_expire ce) =
            wrapS 32 (wrapU 64 (1000 + (ce.rental_period : Int))) ∧
        (emote_expansion_purchase bc_plain db_small 1000 sd_rich 5 6909 3).2 =
            [expansion_success_reply sd_rich 5 1 (wrapU 32 (wrapU 64 (1000 + (ce.rental_period : Int))))] ∧
        (0 ≤ 1000 + (ce.rental_period : Int) → 1000 + (ce.rental_period : Int) < 2 ^ 31 →
          (emote_expansion_purchase bc_plain db_small 1000 sd_rich 5 6909 3).1.regs (var_expire ce) =
              1000 + (ce.rental_period : Int) ∧
          (emote_expansion_purchase bc_plain db_small 1000 sd_rich 5 6909 3).2 =
              [expansion_success_reply sd_rich 5 1 (1000 + (ce.rental_period : Int)).toNat])) ∧
      (ce.rental_period = 0 →
        (emote_expansion_purchase bc_plain db_small 1000 sd_rich 5 6909 3).1.regs (var_expire ce) =
            sd_rich.regs (var_expire ce) ∧
        (emote_expansion_purchase bc_plain db_small 1000 sd_rich 5 6909 3).2 =
            [expansion_success_reply sd_rich 5 0 0]) :=
  purchase_success_effects bc_plain db_small 1000 sd_rich 5 6909 3 (by decide)

/-- Counterexample to C4 as stated: pack 7 is rented for 10000 days; bought at second
1700000000 the purchase succeeds, and the expiry register holds -1730967296, not
`now + r = 2564000000`. -/
theorem purchase_expiry_register_wraps :
    HEADER_ZC_EMOTION_EXPANSION_SUCCESS ∈
        sent_headers (emote_expansion_purchase bc_plain db_long 1700000000 sd_fresh 7 6909 0).2 ∧
      idb_get db_long 7 = some pack_long ∧
      pack_long.rental_period ≠ 0 ∧
      (emote_expansion_purchase bc_plain db_long 1700000000 sd_fresh 7 6909 0).1.regs
          (var_expire pack_long) = -1730967296 ∧
      (emote_expansion_purchase bc_plain db_long 1700000000 sd_fresh 7 6909 0).1.regs
          (var_expire pack_long) ≠ 1700000000 + (pack_long.rental_period : Int) := by
  decide

/-- The registers of the pack after a successful purchase: the ownership register is 1 and,
for a rental, the expiry register holds `now + rental_period` as stored by the code. -/
theorem emote_expansion_purchase_regs (bc : Battle_Config) (db : DBMap) (now : Int)
    (sd : map_session_data) (packId itemId amount : Int)
    (h : HEADER_ZC_EMOTION_EXPANSION_SUCCESS ∈
      sent_headers (emote_expansion_purchase bc db now sd packId itemId amount).2) :
    ∃ ce, idb_get db packId = some ce ∧
      (emote_expansion_purchase bc db now sd packId itemId amount).1.regs (var_name ce) = 1 ∧
      (ce.rental_period ≠ 0 →
        (emote_expansion_purchase bc db now sd packId itemId amount).1.regs (var_expire ce) =
          wrapS 32 (wrapU 64 (now + (ce.rental_period : Int)))) := by
  obtain ⟨h1, h2, ce, hdb, h3, h4, h5, h6, sd1, hpay⟩ :=
    (emote_expansion_purchase_success_iff bc db now sd packId itemId amount).mp h
  refine ⟨ce, hdb, ?_⟩
  rw [emote_expansion_purchase_after_checks bc db now sd packId itemId amount ce h1 h2 hdb h3,
    if_neg h4, if_neg h5, if_neg (by simpa [pc_readglobalreg] using h6), hpay]
  simp only []
  have hne : var_name ce ≠ var_expire ce := var_name_ne_var_expire ce ce
  by_cases hr : ce.rental_period ≠ 0
  · rw [if_pos hr]
    exact ⟨by simp only [pc_setglobalreg, if_neg hne, if_true],
      fun _ => by simp only [pc_setglobalreg, if_true]⟩
  · rw [if_neg hr]
    exact ⟨by simp only [pc_setglobalreg, if_true], fun h0 => absurd h0 hr⟩

/-- C5 (as amended): purchase-then-use round trip. If `emote_expansion_purchase` succeeds for
pack `P` at time `t0` and, when `P` is a rental, the expiry time `t0 + rental_period` fits the
signed 32-bit register (`0 ≤ t0 + rental_period < 2 ^ 31`), then at every time `t` such that
`P` is not a rental or `t ≤ t0 + rental_period`, for every emotion `e` of `P` other than
`ET_CHAT_PROHIBIT`, a call `emote_check_before_use(P, e)` by a player carrying the registers
the purchase left, that passes the basic-skill and cooldown checks, sends `ZC_EMOTION_SUCCESS`
(for both account-wide and character pack types). -/
theorem purchase_then_use_succeeds (bc : Battle_Config) (db : DBMap) (t0 : Int)
    (sd : map_session_data) (packId itemId amount : Int) (ce : s_emotion_db)
    (bc2 : Battle_Config) (t : Int) (rnd : Nat) (sd2 : map_session_data) (e : Int)
    (hbuy : HEADER_ZC_EMOTION_EXPANSION_SUCCESS ∈
      sent_headers (emote_expansion_purchase bc db t0 sd packId itemId amount).2)
    (hdb : idb_get db packId = some ce)
    (hfit : ce.rental_period ≠ 0 →
      0 ≤ t0 + (ce.rental_period : Int) ∧ t0 + (ce.rental_period : Int) < 2 ^ 31)
    (ht : ce.rental_period = 0 ∨ t ≤ t0 + (ce.rental_period : Int))
    (he : e ∈ ce.emoteIds.take ce.emote_count)
    (hprohibit : e ≠ ET_CHAT_PROHIBIT)
    (hregs : sd2.regs = (emote_expansion_purchase bc db t0 sd packId itemId amount).1.regs)
    (hskill : ¬ (bc2.basic_skill_check ≠ 0 ∧ sd2.skill_NV_BASIC < 2 ∧ sd2.skill_SU_BASIC_SKILL < 1))
    (hcool : ¬ (sd2.emotionlasttime + 1 ≥ t)) :
    HEADER_ZC_EMOTION_SUCCESS ∈
      sent_headers (emote_check_before_use bc2 db t rnd sd2 packId e).2 := by
  obtain ⟨ce1, hdb1, hflag, hexp⟩ := emote_expansion_purchase_regs bc db t0 sd packId itemId amount hbuy
  rw [hdb] at hdb1
  cases hdb1
  rw [emote_check_before_use_success_iff]
  refine ⟨hskill, hprohibit, hcool, ce, hdb, he, fun _ => ⟨?_, ?_⟩⟩
  · rw [hregs, hflag]
    decide
  · rintro ⟨hr, hgt⟩
    obtain ⟨hlo, hhi⟩ := hfit hr
    rw [hregs, hexp hr] at hgt
    have h64 : (wrapU 64 (t0 + (ce.rental_period : Int)) : Int) = t0 + (ce.rental_period : Int) :=
      wrapU_of_lt 64 _ hlo (lt_trans hhi (by norm_num))
    rw [h64, wrapS_of_lt 32 _ hlo (by simpa using hhi)] at hgt
    rcases ht with h0 | hle
    · exact hr h0
    · omega

/-- Witness of C5: pack 5 (price 3, one day of rent) is bought at second 1000 and emotion 93
is played at second 2000 by the buyer. -/
theorem purchase_then_use_succeeds_witness :
    HEADER_ZC_EMOTION_SUCCESS ∈
      sent_headers (emote_check_before_use bc_plain db_small 2000 0
        (emote_expansion_purchase bc_plain db_small 1000 sd_rich 5 6909 3).1 5 93).2 :=
  purchase_then_use_succeeds bc_plain db_small 1000 sd_rich 5 6909 3 pack_five bc_plain 2000 0
    (emote_expansion_purchase bc_plain db_small 1000 sd_rich 5 6909 3).1 93
    (by decide) (by decide) (by decide) (by decide) (by decide) (by decide) rfl (by decide)
    (by decide)

/-- Counterexample to C5 as stated: pack 7 (rented for 10000 days) is bought at second
1700000000; 100 seconds later, well inside the rental period, the buyer plays its emotion 96
and gets `ZC_EMOTION_FAIL` with `USE_FAIL_DATE`: the expiry register wrapped to a negative
value. -/
theorem purchase_then_use_fails_on_wrapped_expiry :
    HEADER_ZC_EMOTION_EXPANSION_SUCCESS ∈
        sent_headers (emote_expansion_purchase bc_plain db_long 1700000000 sd_fresh 7 6909 0).2 ∧
      idb_get db_long 7 = some pack_long ∧
      (1700000100 : Int) ≤ 1700000000 + (pack_long.rental_period : Int) ∧
      (96 : Int) ∈ pack_long.emoteIds.take pack_long.emote_count ∧
      (96 : Int) ≠ ET_CHAT_PROHIBIT ∧
      (emote_check_before_use bc_plain db_long 1700000100 0
        (emote_expansion_purchase bc_plain db_long 1700000000 sd_fresh 7 6909 0).1 7 96).2 =
        [emote_fail_to_requester sd_fresh 7 96 EMSG_EMOTION_EXPANSION_USE_FAIL_DATE] ∧
      HEADER_ZC_EMOTION_SUCCESS ∉
        sent_headers (emote_check_before_use bc_plain db_long 1700000100 0
          (emote_expansion_purchase bc_plain db_long 1700000000 sd_fresh 7 6909 0).1 7 96).2 := by
  decide

/-- Two packs use the same ownership register exactly when they use the same expiry register. -/
theorem var_name_eq_iff_var_expire_eq (a b : s_emotion_db) :
    var_name a = var_name b ↔ var_expire a = var_expire b := by
  unfold var_name var_expire
  simp only [String.ext_iff, String.data_append]
  split_ifs <;> simp

/-- Resetting the two registers of pack `e` does not change what is read for a pack `x` whose
ownership register has another name. -/
theorem reset_regs_other (sd : map_session_data) (e x : s_emotion_db)
    (hne : var_name x ≠ var_name e) :
    (pc_setglobalreg (pc_setglobalreg sd (var_name e) 0) (var_expire e) 0).regs (var_name x) =
        sd.regs (var_name x) ∧
    (pc_setglobalreg (pc_setglobalreg sd (var_name e) 0) (var_expire e) 0).regs (var_expire x) =
        sd.regs (var_expire x) := by
  have h1 : var_name x ≠ var_expire e := var_name_ne_var_expire x e
  have h2 : var_expire x ≠ var_name e := fun h => var_name_ne_var_expire e x h.symm
  have h3 : var_expire x ≠ var_expire e := fun h => hne ((var_name_eq_iff_var_expire_eq x e).mpr h)
  simp only [pc_setglobalreg, if_neg h1, if_neg hne, if_neg h2, if_neg h3, and_self]

/-- The loop of `emote_get_player_packs`, started with `packs` already filled, over packs with
pairwise distinct register names: it appends the entries of the active packs, in order, and
stops filling at `MAX_EMOTE_PACKS` entries. -/
theorem emote_get_player_packs_fold (now : Int) (entries : List s_emotion_db) :
    ∀ (sd : map_session_data) (packs : List PACKET_ZC_EMOTION_EXPANSION_LIST_sub),
      (entries.map var_name).Nodup → packs.length ≤ MAX_EMOTE_PACKS →
      (entries.foldl (emote_get_player_packs_step now) (sd, packs)).2 =
        (packs ++ (entries.filter (pack_active now sd)).map (pack_list_entry sd)).take MAX_EMOTE_PACKS := by
  induction entries with
  | nil =>
    intro sd packs _ hlen
    simp only [List.foldl_nil, List.filter_nil, List.map_nil, List.append_nil]
    exact (List.take_of_length_le hlen).symm
  | cons e rest ih =>
    intro sd packs hnd hlen
    simp only [List.map_cons, List.nodup_cons] at hnd
    obtain ⟨hnotin, hnd⟩ := hnd
    simp only [List.foldl_cons]
    have hstep : emote_get_player_packs_step now (sd, packs) e =
        if sd.regs (var_name e) ≠ 0 ∧ e.rental_period ≠ 0 ∧ now > sd.regs (var_expire e) then
          (pc_setglobalreg (pc_setglobalreg sd (var_name e) 0) (var_expire e) 0, packs)
        else if sd.regs (var_name e) ≠ 0 ∧ packs.length < MAX_EMOTE_PACKS then
          (sd, packs ++ [pack_list_entry sd e])
        else (sd, packs) := rfl
    rw [hstep]
    by_cases hexp : sd.regs (var_name e) ≠ 0 ∧ e.rental_period ≠ 0 ∧ now > sd.regs (var_expire e)
    · rw [if_pos hexp, ih _ packs hnd hlen]
      have hinactive : pack_active now sd e = false := by
        unfold pack_active
        have h1 : ¬ e.rental_period = 0 := hexp.2.1
        have h2 : ¬ now ≤ sd.regs (var_expire e) := by omega
        simp [h1, h2]
      have hrest : ∀ x ∈ rest,
          pack_active now (pc_setglobalreg (pc_setglobalreg sd (var_name e) 0) (var_expire e) 0) x =
            pack_active now sd x ∧
          pack_list_entry (pc_setglobalreg (pc_setglobalreg sd (var_name e) 0) (var_expire e) 0) x =
            pack_list_entry sd x := by
        intro x hx
        have hne : var_name x ≠ var_name e := by
          intro h
          exact hnotin (h ▸ List.mem_map_of_mem var_name hx)
        obtain ⟨r1, r2⟩ := reset_regs_other sd e x hne
        unfold pack_active pack_list_entry
        rw [r1, r2]
        exact ⟨rfl, rfl⟩
      have hfilter : rest.filter (pack_active now
            (pc_setglobalreg (pc_setglobalreg sd (var_name e) 0) (var_expire e) 0)) =
          rest.filter (pack_active now sd) :=
        List.filter_congr (fun x hx => (hrest x hx).1)
      have hmap : (rest.filter (pack_active now sd)).map (pack_list_entry
            (pc_setglobalreg (pc_setglobalreg sd (var_name e) 0) (var_expire e) 0)) =
          (rest.filter (pack_active now sd)).map (pack_list_entry sd) :=
        List.map_congr_left (fun x hx => (hrest x (List.mem_of_mem_filter hx)).2)
      rw [hfilter, hmap, List.filter_cons, hinactive]
      simp
    · rw [if_neg hexp]
      by_cases hown : sd.regs (var_name e) ≠ 0
      · have hactive : pack_active now sd e = true := by
          unfold pack_active
          by_cases hr : e.rental_period = 0
          · simp [hown, hr]
          · have h2 : now ≤ sd.regs (var_expire e) := by
              by_contra hgt
              exact hexp ⟨hown, hr, by omega⟩
            simp [hown, h2]
        rw [List.filter_cons, hactive]
        simp only [if_true, List.map_cons]
        by_cases hroom : packs.length < MAX_EMOTE_PACKS
        · rw [if_pos ⟨hown, hroom⟩, ih sd _ hnd (by simp only [List.length_append, List.length_singleton]; omega)]
          simp only [List.append_assoc, List.singleton_append]
        · rw [if_neg (fun h => hroom h.2), ih sd packs hnd hlen]
          have hfull : MAX_EMOTE_PACKS ≤ packs.length := by omega
          rw [List.take_append_of_le_length hfull, List.take_append_of_le_length hfull]
      · have hinactive : pack_active now sd e = false := by
          unfold pack_active
          simp only [ne_eq, not_not] at hown
          simp [hown]
        rw [if_neg (fun h => hown h.1), ih sd packs hnd hlen, List.filter_cons, hinactive]
        simp

/-- The loop of `emote_get_player_packs` never changes the block id of the player. -/
theorem emote_get_player_packs_fold_bl (now : Int) (entries : List s_emotion_db) :
    ∀ (sd : map_session_data) (packs : List PACKET_ZC_EMOTION_EXPANSION_LIST_sub),
      (entries.foldl (emote_get_player_packs_step now) (sd, packs)).1.bl_id = sd.bl_id := by
  induction entries with
  | nil => intro sd packs; rfl
  | cons e rest ih =>
    intro sd packs
    simp only [List.foldl_cons]
    rw [ih]
    unfold emote_get_player_packs_step
    simp only []
    split_ifs <;> rfl

/-- The pack list sent by `emote_get_player_packs` for a connected player, a loaded database
and packs with pairwise distinct register names. -/
theorem emote_get_player_packs_sent (PACKETVER : Nat) (db : DBMap) (now : Int)
    (sd : map_session_data) (hfd : sd.fd ≠ 0)
    (hnames : (db.map (fun e => var_name e.2)).Nodup) :
    sent_pack_list (emote_get_player_packs PACKETVER (some db) now sd).2 =
      (((db.map (fun e => e.2)).filter (pack_active now sd)).map (pack_list_entry sd)).take
        MAX_EMOTE_PACKS := by
  unfold emote_get_player_packs
  rw [if_neg hfd]
  simp only [clif_send_emote_expansion_list, sent_pack_list, List.flatMap_cons, List.flatMap_nil,
    List.append_nil, List.take_length]
  have hnd : ((db.map (fun e => e.2)).map var_name).Nodup := by
    simpa [List.map_map, Function.comp] using hnames
  rw [emote_get_player_packs_fold now _ sd [] hnd (Nat.zero_le _)]
  simp

/-- Invariant of the loop of `emote_get_player_packs`: an entry that is listed was built from a
pack that the player owned and that was not an expired rental when the function was entered.
`sd0` is the player record at entry, `sd` the current one, which differs from it only by
registers reset to 0. -/
theorem emote_get_player_packs_fold_sound (now : Int) (sd0 : map_session_data)
    (entries : List s_emotion_db) :
    ∀ (sd : map_session_data) (packs : List PACKET_ZC_EMOTION_EXPANSION_LIST_sub),
      (∀ x : s_emotion_db, sd.regs (var_name x) ≠ 0 →
        sd.regs (var_name x) = sd0.regs (var_name x) ∧
        sd.regs (var_expire x) = sd0.regs (var_expire x)) →
      ∀ p ∈ (entries.foldl (emote_get_player_packs_step now) (sd, packs)).2,
        p ∈ packs ∨ ∃ ce ∈ entries, sd0.regs (var_name ce) ≠ 0 ∧
          ¬ (ce.rental_period ≠ 0 ∧ now > sd0.regs (var_expire ce)) ∧ p = pack_list_entry sd0 ce := by
  induction entries with
  | nil =>
    intro sd packs _ p hp
    exact Or.inl hp
  | cons e rest ih =>
    intro sd packs hinv p hp
    simp only [List.foldl_cons] at hp
    have hstep : emote_get_player_packs_step now (sd, packs) e =
        if sd.regs (var_name e) ≠ 0 ∧ e.rental_period ≠ 0 ∧ now > sd.regs (var_expire e) then
          (pc_setglobalreg (pc_setglobalreg sd (var_name e) 0) (var_expire e) 0, packs)
        else if sd.regs (var_name e) ≠ 0 ∧ packs.length < MAX_EMOTE_PACKS then
          (sd, packs ++ [pack_list_entry sd e])
        else (sd, packs) := rfl
    rw [hstep] at hp
    have lift : (p ∈ packs ∨ ∃ ce ∈ rest, sd0.regs (var_name ce) ≠ 0 ∧
          ¬ (ce.rental_period ≠ 0 ∧ now > sd0.regs (var_expire ce)) ∧ p = pack_list_entry sd0 ce) →
        (p ∈ packs ∨ ∃ ce ∈ e :: rest, sd0.regs (var_name ce) ≠ 0 ∧
          ¬ (ce.rental_period ≠ 0 ∧ now > sd0.regs (var_expire ce)) ∧ p = pack_list_entry sd0 ce) := by
      rintro (h | ⟨ce, hce, h⟩)
      · exact Or.inl h
      · exact Or.inr ⟨ce, List.mem_cons_of_mem _ hce, h⟩
    by_cases hexp : sd.regs (var_name e) ≠ 0 ∧ e.rental_period ≠ 0 ∧ now > sd.regs (var_expire e)
    · rw [if_pos hexp] at hp
      refine lift (ih _ packs ?_ p hp)
      intro x hx
      have hne : var_name x ≠ var_name e := by
        intro h
        apply hx
        have h1 : var_name x ≠ var_expire e := var_name_ne_var_expire x e
        simp only [pc_setglobalreg, if_neg h1, if_pos h]
      obtain ⟨r1, r2⟩ := reset_regs_other sd e x hne
      rw [r1] at hx
      rw [r1, r2]
      exact hinv x hx
    · rw [if_neg hexp] at hp
      by_cases hroom : sd.regs (var_name e) ≠ 0 ∧ packs.length < MAX_EMOTE_PACKS
      · rw [if_pos hroom] at hp
        rcases ih sd _ hinv p hp with h | h
        · rcases List.mem_append.mp h with h | h
          · exact Or.inl h
          · right
            obtain ⟨e1, e2⟩ := hinv e hroom.1
            refine ⟨e, List.mem_cons_self _ _, ?_, ?_, ?_⟩
            · rw [← e1]; exact hroom.1
            · rw [← e2]; exact fun hc => hexp ⟨hroom.1, hc.1, hc.2⟩
            · rw [List.mem_singleton] at h
              rw [h]
              unfold pack_list_entry
              rw [e2]
        · exact lift (Or.inr h)
      · rw [if_neg hroom] at hp
        exact lift (ih sd packs hinv p hp)

/-- C6 (as amended): for a player with a live connection and a loaded pack database in which
no two packs share a register name and at most `MAX_EMOTE_PACKS` (100) packs are active for
the player, the list sent by `emote_get_player_packs` contains the entry of every pack of the
database that is active for the player (ownership register non-zero, and not a rental or
expiry register not earlier than the current time). -/
theorem player_packs_lists_every_active_pack (PACKETVER : Nat) (db : DBMap) (now : Int)
    (sd : map_session_data) (ce : s_emotion_db)
    (hfd : sd.fd ≠ 0)
    (hnames : (db.map (fun e => var_name e.2)).Nodup)
    (hroom : ((db.map (fun e => e.2)).filter (pack_active now sd)).length ≤ MAX_EMOTE_PACKS)
    (hmem : ce ∈ db.map (fun e => e.2))
    (hactive : sd.regs (var_name ce) ≠ 0 ∧
      (ce.rental_period = 0 ∨ now ≤ sd.regs (var_expire ce))) :
    pack_list_entry sd ce ∈ sent_pack_list (emote_get_player_packs PACKETVER (some db) now sd).2 ∧
      (pack_list_entry sd ce).packId = ce.packId := by
  refine ⟨?_, rfl⟩
  rw [emote_get_player_packs_sent PACKETVER db now sd hfd hnames, List.take_of_length_le (by simpa using hroom)]
  apply List.mem_map_of_mem
  rw [List.mem_filter]
  refine ⟨hmem, ?_⟩
  unfold pack_active
  rcases hactive with ⟨h1, h2 | h2⟩
  · simp [h1, h2]
  · simp [h1, h2]

/-- Witness of C6: the owner of the rented pack 5 (expiry 5000) logs in at second 1000; the
list holds the entry of pack 5. -/
theorem player_packs_lists_every_active_pack_witness :
    pack_list_entry sd_owner pack_five ∈
        sent_pack_list (emote_get_player_packs 20250305 (some db_small) 1000 sd_owner).2 ∧
      (pack_list_entry sd_owner pack_five).packId = pack_five.packId :=
  player_packs_lists_every_active_pack 20250305 db_small 1000 sd_owner pack_five
    (by decide) (by decide) (by decide) (by decide) (by decide)

set_option maxRecDepth 100000 in
/-- Counterexample to C6 as stated: the database holds 101 permanent packs, all owned by the
connected player; the list sent has 100 entries and none for pack 100, which is active. -/
theorem player_packs_list_drops_pack_101 :
    sd_all.fd ≠ 0 ∧
    ((100 : Int), pack_numbered 100) ∈ db_many ∧
    pack_active 0 sd_all (pack_numbered 100) = true ∧
    (sent_pack_list (emote_get_player_packs 20250305 (some db_many) 0 sd_all).2).length = 100 ∧
    ∀ p ∈ sent_pack_list (emote_get_player_packs 20250305 (some db_many) 0 sd_all).2,
      p.packId ≠ (pack_numbered 100).packId := by
  decide

/-- C7 (as amended): every entry of the list sent by `emote_get_player_packs` corresponds to a
database pack that the player owns (register non-zero) and that is not an expired rental; it
carries that pack's `packId`, `isRented = 1` exactly when `rental_period` is non-zero, and as
timestamp the `cashemoteexpire_<id>` register reduced to 32 unsigned bits (the register itself
when it lies in `0 .. 2 ^ 32 - 1`). When no two packs of the database share a register name,
the entries appear in database iteration order, one per such pack, for the first
`MAX_EMOTE_PACKS` (100) such packs. -/
theorem player_packs_list_entries (PACKETVER : Nat) (db : DBMap) (now : Int)
    (sd : map_session_data) (hfd : sd.fd ≠ 0) :
    (∀ p ∈ sent_pack_list (emote_get_player_packs PACKETVER (some db) now sd).2,
      ∃ ce ∈ db.map (fun e => e.2),
        sd.regs (var_name ce) ≠ 0 ∧
        ¬ (ce.rental_period ≠ 0 ∧ now > sd.regs (var_expire ce)) ∧
        p.packId = ce.packId ∧
        (p.isRented = 1 ↔ ce.rental_period ≠ 0) ∧
        p.timestamp = wrapU 32 (sd.regs (var_expire ce)) ∧
        (0 ≤ sd.regs (var_expire ce) → sd.regs (var_expire ce) < 2 ^ 32 →
          (p.timestamp : Int) = sd.regs (var_expire ce))) ∧
    ((db.map (fun e => var_name e.2)).Nodup →
      sent_pack_list (emote_get_player_packs PACKETVER (some db) now sd).2 =
        (((db.map (fun e => e.2)).filter (pack_active now sd)).map (pack_list_entry sd)).take
          MAX_EMOTE_PACKS) := by
  refine ⟨?_, emote_get_player_packs_sent PACKETVER db now sd hfd⟩
  intro p hp
  unfold emote_get_player_packs at hp
  rw [if_neg hfd] at hp
  simp only [clif_send_emote_expansion_list, sent_pack_list, List.flatMap_cons, List.flatMap_nil,
    List.append_nil, List.take_length] at hp
  rcases emote_get_player_packs_fold_sound now sd (db.map (fun e => e.2)) sd []
      (fun x _ => ⟨rfl, rfl⟩) p hp with h | ⟨ce, hce, hown, hexp, hpe⟩
  · cases h
  · refine ⟨ce, hce, hown, hexp, ?_, ?_, ?_, ?_⟩
    · rw [hpe]; rfl
    · rw [hpe]
      unfold pack_list_entry
      by_cases hr : ce.rental_period ≠ 0
      · simp [hr]
      · simp [hr]
    · rw [hpe]; rfl
    · intro h0 h1
      rw [hpe]
      exact wrapU_of_lt 32 _ h0 h1

/-- Witness of C7: the owner of the rented pack 5 (expiry 5000) logs in at second 1000; the
list is the single entry of pack 5. -/
theorem player_packs_list_entries_witness :
    (∀ p ∈ sent_pack_list (emote_get_player_packs 20250305 (some db_small) 1000 sd_owner).2,
      ∃ ce ∈ db_small.map (fun e => e.2),
        sd_owner.regs (var_name ce) ≠ 0 ∧
        ¬ (ce.rental_period ≠ 0 ∧ (1000 : Int) > sd_owner.regs (var_expire ce)) ∧
        p.packId = ce.packId ∧
        (p.isRented = 1 ↔ ce.rental_period ≠ 0) ∧
        p.timestamp = wrapU 32 (sd_owner.regs (var_expire ce)) ∧
        (0 ≤ sd_owner.regs (var_expire ce) → sd_owner.regs (var_expire ce) < 2 ^ 32 →
          (p.timestamp : Int) = sd_owner.regs (var_expire ce))) ∧
    sent_pack_list (emote_get_player_packs 20250305 (some db_small) 1000 sd_owner).2 =
      [{ packId := 5, isRented := 1, timestamp := 5000 }] :=
  ⟨(player_packs_list_entries 20250305 db_small 1000 sd_owner (by decide)).1,
   ((player_packs_list_entries 20250305 db_small 1000 sd_owner (by decide)).2 (by decide)).trans
     (by decide)⟩

set_option maxRecDepth 100000 in
/-- Counterexample to C7 as stated: the database holds 101 permanent packs with distinct
register names, all owned by the connected player, so 101 packs are owned and not expired;
the list sent has 100 entries, not one per such pack. -/
theorem player_packs_list_not_one_per_pack :
    sd_all.fd ≠ 0 ∧
    (db_many.map (fun e => var_name e.2)).Nodup ∧
    ((db_many.map (fun e => e.2)).filter (fun ce =>
      decide (sd_all.regs (var_name ce) ≠ 0) &&
        !(decide (ce.rental_period ≠ 0) && decide ((0 : Int) > sd_all.regs (var_expire ce))))).length
      = 101 ∧
    (sent_pack_list (emote_get_player_packs 20250305 (some db_many) 0 sd_all).2).length = 100 := by
  decide

/-- The `int16` parameter `packId` is the request's `uint16` field itself when the field is
below 32768. -/
theorem request_packId_low (p : Nat) (h : p < 32768) : wrapS 16 (p : Int) = p := by
  apply wrapS_of_lt 16 _ (Int.natCast_nonneg p)
  have : (p : Int) < 32768 := by exact_mod_cast h
  simpa using this

/-- The `int16` parameter `packId` is the request's `uint16` field minus 65536 when the field
is 32768 or more. -/
theorem request_packId_high (p : Nat) (h1 : 32768 ≤ p) (h2 : p < 65536) :
    wrapS 16 (p : Int) = (p : Int) - 65536 := by
  unfold wrapS
  have h3 : (p : Int) % 2 ^ 16 = p := Int.emod_eq_of_lt (Int.natCast_nonneg p) (by norm_num; exact_mod_cast h2)
  rw [h3, if_neg (by norm_num; exact_mod_cast h1)]
  norm_num

/-- C8, the code at the failing input: `emote_db_init` loads the pack with `PackId` 40000 under
the key 40000, yet a `CZ_REQ_EMOTION2` and a `CZ_EMOTION_EXPANSION_REQ` whose `packId` field
is 40000 look up the key -25536, find no entry and are answered with the `UNKNOWN` failures. -/
theorem pack_lookup_misses_high_pack_id :
    emote_db_init get_constant_custom mktime_unused (some (some [conf_pack_40000])) none =
        (true, some [(40000, pack_40000)]) ∧
    idb_get [(40000, pack_40000)] 40000 = some pack_40000 ∧
    wrapS 16 (40000 : Nat) = -25536 ∧
    idb_get [(40000, pack_40000)] (wrapS 16 (40000 : Nat)) = none ∧
    (clif_parse_emotion2 bc_plain [(40000, pack_40000)] 1000 0 sd_all 40000 93).2 =
        [emote_fail_to_requester sd_all 40000 93 EMSG_EMOTION_EXPANSION_USE_FAIL_UNKNOWN] ∧
    (clif_parse_emote_expansion_request bc_plain [(40000, pack_40000)] 1000 sd_all 40000 6909 0).2 =
        [expansion_fail_reply sd_all 40000 EMSG_EMOTION_EXPANSION_FAIL_UNKNOWN] := by
  decide

end EmoteUI

namespace AllyChat

/-- The number of entries kept by `filterMap` is the number of elements mapped to `some`. -/
theorem length_filterMap_eq (f : Nat → Option Sent) (l : List Nat) :
    (l.filterMap f).length = (l.filter (fun i => (f i).isSome)).length := by
  induction l with
  | nil => rfl
  | cons a rest ih =>
    cases hf : f a with
    | none =>
      rw [List.filterMap_cons_none hf, List.filter_cons_of_neg (by rw [hf]; decide), ih]
    | some v =>
      rw [List.filterMap_cons_some hf, List.filter_cons_of_pos (by rw [hf]; rfl),
        List.length_cons, List.length_cons, ih]

/-- The loop body sends for slot `i` exactly when the slot satisfies the claim's condition. -/
theorem alliance_slot_target_isSome (h : Host) (g : guild) (i : Nat) :
    (alliance_slot_target h g i).isSome = allied_slot h g i := by
  unfold alliance_slot_target allied_slot
  by_cases h1 : (g.alliance i).guild_id ≠ 0 ∧ (g.alliance i).opposition = 0
  · rw [if_pos h1, decide_eq_true h1.1, decide_eq_true h1.2]
    cases hs : h.search (g.alliance i).guild_id with
    | none => rfl
    | some ag => rfl
  · rw [if_neg h1]
    by_cases h2 : (g.alliance i).guild_id = 0
    · rw [decide_eq_false (not_not.mpr h2)]
      rfl
    · have h3 : ¬ (g.alliance i).opposition = 0 := fun h0 => h1 ⟨h2, h0⟩
      rw [decide_eq_false h3, Bool.and_false]
      rfl

/-- C9: for a guild `g` with an available member and a message of length > 0,
`clif_send_guild_alliance_message` sends the `ZC_ALLY_CHAT` packet first to `g`'s members, then
once for each alliance slot `i < MAX_GUILDALLIANCE` whose `guild_id` is non-zero, whose
`opposition` flag is 0 and whose guild is found and has an available member, so the number of
sends is 1 plus the number of such slots; nothing is sent for a slot marked as opposition.
When `g` has no available member or the length is `≤ 0`, nothing is sent. -/
theorem alliance_message_fan_out (h : Host) (g : guild) (mes : List Nat) (len : Int) :
    (∀ sd, h.getavailablesd g = some sd → 0 < len →
      ∃ p : PACKET_ZC_ALLY_CHAT, p.packetType = HEADER_ZC_ALLY_CHAT ∧
        clif_send_guild_alliance_message h g mes len =
          { pkt := p, len := p.packetLength, bl := sd, target := .GUILD } ::
            (List.range h.MAX_GUILDALLIANCE).filterMap (fun i =>
              (alliance_slot_target h g i).map (fun allysd =>
                { pkt := p, len := p.packetLength, bl := allysd, target := .GUILD })) ∧
        (clif_send_guild_alliance_message h g mes len).length =
          1 + ((List.range h.MAX_GUILDALLIANCE).filter (allied_slot h g)).length ∧
        (∀ i, (g.alliance i).opposition ≠ 0 → alliance_slot_target h g i = none) ∧
        (∀ i, allied_slot h g i = true →
          ∃ ag allysd, h.search (g.alliance i).guild_id = some ag ∧
            h.getavailablesd ag = some allysd ∧ alliance_slot_target h g i = some allysd)) ∧
    ((h.getavailablesd g = none ∨ len ≤ 0) → clif_send_guild_alliance_message h g mes len = []) := by
  constructor
  · intro sd hsd hlen
    unfold clif_send_guild_alliance_message
    rw [hsd]
    dsimp only
    rw [if_neg (not_le.mpr hlen)]
    refine ⟨ally_chat_packet h mes len, rfl, rfl, ?_, ?_, ?_⟩
    · simp only [List.length_cons, length_filterMap_eq, Option.isSome_map',
        alliance_slot_target_isSome]
      exact Nat.add_comm _ 1
    · intro i hopp
      unfold alliance_slot_target
      rw [if_neg (fun hc => hopp hc.2)]
    · intro i hi
      unfold allied_slot at hi
      unfold alliance_slot_target
      cases hs : h.search (g.alliance i).guild_id with
      | none => rw [hs] at hi; simp at hi
      | some ag =>
        rw [hs] at hi
        simp only [Bool.and_eq_true, decide_eq_true_eq] at hi
        obtain ⟨⟨h1, h2⟩, h3⟩ := hi
        obtain ⟨allysd, hally⟩ := Option.isSome_iff_exists.mp h3
        refine ⟨ag, allysd, rfl, hally, ?_⟩
        rw [if_pos ⟨h1, h2⟩]
        exact hally
  · intro hnone
    unfold clif_send_guild_alliance_message
    cases hsd : h.getavailablesd g with
    | none => rfl
    | some sd =>
      rcases hnone with h0 | h0
      · rw [hsd] at h0; cases h0
      · dsimp only
        rw [if_pos h0]

/-- Witness of C9: guild 1 has one qualifying slot (the alliance with guild 2), one opposition
slot and one slot whose guild is unknown; a 5-byte message is sent twice, to the members of
guild 1 (block 101) and of guild 2 (block 102); with nobody online nothing is sent. -/
theorem alliance_message_fan_out_witness :
    (clif_send_guild_alliance_message host_small guild_one [104, 101, 108, 108, 111] 5).map
        (fun s => s.bl) = [101, 102] ∧
    (clif_send_guild_alliance_message host_small guild_one [104, 101, 108, 108, 111] 5).length =
        1 + ((List.range host_small.MAX_GUILDALLIANCE).filter (allied_slot host_small guild_one)).length ∧
    clif_send_guild_alliance_message host_offline guild_one [104, 101, 108, 108, 111] 5 = [] ∧
    clif_send_guild_alliance_message host_small guild_one [] 0 = [] := by
  obtain ⟨p, _, hout, hlen, _, _⟩ :=
    (alliance_message_fan_out host_small guild_one [104, 101, 108, 108, 111] 5).1 101
      (by decide) (by decide)
  refine ⟨by decide, hlen, ?_, ?_⟩
  · exact (alliance_message_fan_out host_offline guild_one [104, 101, 108, 108, 111] 5).2
      (Or.inl (by decide))
  · exact (alliance_message_fan_out host_small guild_one [] 0).2 (Or.inr (by decide))

end AllyChat

namespace RodexReturn

/-- The result packets of a concatenation of effects. -/
theorem sent_results_append (a b : List Effect) :
    sent_results (a ++ b) = sent_results a ++ sent_results b := by
  induction a with
  | nil => rfl
  | cons e rest ih =>
    rw [List.cons_append]
    cases e <;> simp only [sent_results] <;> rw [ih]
    rfl

/-- The optional `Sql_ShowDebug` call sends no result packet. -/
theorem sent_results_debug (c : Prop) [Decidable c] :
    sent_results (if c then [Effect.sql_show_debug] else []) = [] := by
  split_ifs <;> rfl

/-- The notification of the sender and the automatic deletion send no result packet. -/
theorem sent_results_notify_or_delete (h : Host) (is_auto_del_mail : Bool)
    (sd : map_session_data) (mail_id : Nat) (msg : rodex_message) :
    sent_results (notify_or_delete h is_auto_del_mail sd mail_id msg) = [] := by
  unfold notify_or_delete
  split_ifs <;> first | rfl | (split <;> rfl)

/-- C10: for a player who is not trading, dead or vending, `clif_parse_mail_return_btn` sends
exactly one `ZC_RODEX_RETURN_RESULT` packet, to that player, carrying the requested `msgId`,
with status `RODEX_RETURN_STATUS_FAILED` (1) if `msgId` is 0 or the mail is not found in the
mailbox and `RODEX_RETURN_STATUS_SUCCESS` (0) otherwise, whatever the outcome of the `UPDATE`
query; for a player who is trading, dead or vending it sends nothing and updates no mail. -/
theorem mail_return_result_status (h : Host) (is_auto_del_mail : Bool) (sd : map_session_data)
    (mail_id : Nat) :
    ((¬ sd.trading ∧ ¬ sd.dead ∧ ¬ sd.vending) →
      sent_results (clif_parse_mail_return_btn h is_auto_del_mail (some sd) mail_id) =
        [{ packetType := HEADER_ZC_RODEX_RETURN_RESULT
           msgId := mail_id
           status := if mail_id = 0 ∨ h.get_mail sd mail_id = none then RODEX_RETURN_STATUS_FAILED
                     else RODEX_RETURN_STATUS_SUCCESS }] ∧
      Effect.send
          { packetType := HEADER_ZC_RODEX_RETURN_RESULT
            msgId := mail_id
            status := if mail_id = 0 ∨ h.get_mail sd mail_id = none then RODEX_RETURN_STATUS_FAILED
                      else RODEX_RETURN_STATUS_SUCCESS }
          sd.bl_id .SELF ∈ clif_parse_mail_return_btn h is_auto_del_mail (some sd) mail_id) ∧
    ((sd.trading ∨ sd.dead ∨ sd.vending) →
      clif_parse_mail_return_btn h is_auto_del_mail (some sd) mail_id = []) := by
  constructor
  · intro hok
    have hguard : ¬ (sd.trading = true ∨ sd.dead = true ∨ sd.vending = true) := by
      rintro (h0 | h0 | h0)
      · exact hok.1 h0
      · exact hok.2.1 h0
      · exact hok.2.2 h0
    unfold clif_parse_mail_return_btn
    simp only []
    rw [if_neg hguard]
    by_cases h0 : mail_id = 0
    · rw [if_pos h0, if_pos (Or.inl h0)]
      exact ⟨rfl, List.mem_singleton.mpr rfl⟩
    · rw [if_neg h0]
      by_cases hm : h.get_mail sd mail_id = none
      · rw [if_pos (Or.inr hm), hm]
        exact ⟨rfl, List.mem_singleton.mpr rfl⟩
      · rw [if_neg (show ¬ (mail_id = 0 ∨ h.get_mail sd mail_id = none) from
          fun hc => hc.elim h0 hm)]
        obtain ⟨msg, hmsg⟩ := Option.ne_none_iff_exists'.mp hm
        rw [hmsg]
        simp only []
        constructor
        · rw [sent_results_append, sent_results_append, sent_results_append, sent_results_append,
            sent_results_notify_or_delete, sent_results_debug]
          rfl
        · apply List.mem_append_left
          apply List.mem_append_left
          apply List.mem_append_right
          exact List.mem_singleton.mpr rfl
  · intro hbusy
    unfold clif_parse_mail_return_btn
    simp only []
    rw [if_pos hbusy]

/-- Witness of C10: an idle player returns mail 7 (found: status 0) and mail 9 (not found:
status 1); the same request from a vending player has no effect. -/
theorem mail_return_result_status_witness :
    sent_results (clif_parse_mail_return_btn host_mail true (some sd_idle) 7) =
      [{ packetType := HEADER_ZC_RODEX_RETURN_RESULT, msgId := 7, status := 0 }] ∧
    sent_results (clif_parse_mail_return_btn host_mail true (some sd_idle) 9) =
      [{ packetType := HEADER_ZC_RODEX_RETURN_RESULT, msgId := 9, status := 1 }] ∧
    clif_parse_mail_return_btn host_mail true (some sd_vending) 7 = [] :=
  ⟨((mail_return_result_status host_mail true sd_idle 7).1 (by decide)).1.trans (by decide),
   ((mail_return_result_status host_mail true sd_idle 9).1 (by decide)).1.trans (by decide),
   (mail_return_result_status host_mail true sd_vending 7).2 (by decide)⟩

/-- The `intif->rodex_updatemail` calls of a concatenation of effects. -/
theorem mail_deletes_append (a b : List Effect) :
    mail_deletes (a ++ b) = mail_deletes a ++ mail_deletes b := by
  unfold mail_deletes
  exact List.filter_append a b

/-- The optional `Sql_ShowDebug` call deletes nothing. -/
theorem mail_deletes_debug (c : Prop) [Decidable c] :
    mail_deletes (if c then [Effect.sql_show_debug] else []) = [] := by
  split_ifs <;> rfl

/-- The effects of a successful return: the `UPDATE`, the result packet, the sender block and
the refresh of the requester's mailbox. -/
theorem clif_parse_mail_return_btn_found (h : Host) (is_auto_del_mail : Bool)
    (sd : map_session_data) (mail_id : Nat) (msg : rodex_message)
    (hok : ¬ (sd.trading ∨ sd.dead ∨ sd.vending)) (hid : mail_id ≠ 0)
    (hmail : h.get_mail sd mail_id = some msg) :
    clif_parse_mail_return_btn h is_auto_del_mail (some sd) mail_id =
      [.sql_update_mail mail_id sd.char_id]
        ++ (if h.update_query = .SQL_ERROR then [.sql_show_debug] else [])
        ++ clif_mail_return_result sd mail_id RODEX_RETURN_STATUS_SUCCESS
        ++ notify_or_delete h is_auto_del_mail sd mail_id msg
        ++ [.rodex_refresh sd.bl_id "RODEX_OPENTYPE_UNSET"] := by
  unfold clif_parse_mail_return_btn
  dsimp only
  rw [if_neg hok, if_neg hid, hmail]

/-- The `intif->rodex_updatemail` calls of the sender block. -/
theorem mail_deletes_notify_or_delete (h : Host) (is_auto_del_mail : Bool)
    (sd : map_session_data) (mail_id : Nat) (msg : rodex_message) :
    mail_deletes (notify_or_delete h is_auto_del_mail sd mail_id msg) =
      if is_auto_del_mail = true ∧ msg.sender_id > 0 ∧ sender_online h msg = none ∧
          h.select_query ≠ .SQL_ERROR ∧ h.next_row ≠ .SQL_SUCCESS then
        [.rodex_updatemail sd.bl_id mail_id 0 3]
      else [] := by
  unfold notify_or_delete sender_online
  by_cases h1 : msg.sender_id > 0
  · rw [if_pos h1]
    cases hon : (h.charid2sd msg.sender_id).filter (fun snd_sd => decide (snd_sd.fd > 0)) with
    | some snd_sd =>
      dsimp only
      rw [if_neg (fun hc => by cases hc.2.2.1)]
      rfl
    | none =>
      dsimp only
      by_cases h2 : is_auto_del_mail = true
      · rw [if_pos h2]
        by_cases h3 : h.select_query = .SQL_ERROR
        · rw [if_pos h3, if_neg (fun hc => hc.2.2.2.1 h3)]
          rfl
        · rw [if_neg h3]
          by_cases h4 : h.next_row ≠ .SQL_SUCCESS
          · rw [if_pos h4, if_pos ⟨h2, h1, rfl, h3, h4⟩]
            rfl
          · rw [if_neg h4, if_neg (fun hc => h4 hc.2.2.2.2)]
            rfl
      · rw [if_neg h2, if_neg (fun hc => h2 hc.1)]
        rfl
  · rw [if_neg h1, if_neg (fun hc => h1 hc.2.1)]
    rfl

/-- Decision table of the automatic delete. After a successful return (the player is not
trading, dead or vending, `msgId` is not 0 and the mail is found), `clif_parse_mail_return_btn`
calls `intif->rodex_updatemail(sd, mail_id, 0, 3)`, once, exactly when `is_auto_del_mail` is
true, the mail's `sender_id` is `> 0`, the sender is not online (no session data with
`fd > 0`), the `SELECT` is not `SQL_ERROR` and `SQL->NextRow` does not answer `SQL_SUCCESS`,
which holds for `SQL_NO_DATA` and for `SQL_ERROR` alike; an online sender receives the two
mailbox refreshes, the icon and the message instead, and no delete is issued. -/
theorem returned_mail_auto_delete (h : Host) (is_auto_del_mail : Bool) (sd : map_session_data)
    (mail_id : Nat) (msg : rodex_message)
    (hok : ¬ (sd.trading ∨ sd.dead ∨ sd.vending)) (hid : mail_id ≠ 0)
    (hmail : h.get_mail sd mail_id = some msg) :
    (Effect.rodex_updatemail sd.bl_id mail_id 0 3 ∈
        clif_parse_mail_return_btn h is_auto_del_mail (some sd) mail_id ↔
      is_auto_del_mail = true ∧ msg.sender_id > 0 ∧ sender_online h msg = none ∧
        h.select_query ≠ .SQL_ERROR ∧ h.next_row ≠ .SQL_SUCCESS) ∧
    mail_deletes (clif_parse_mail_return_btn h is_auto_del_mail (some sd) mail_id) =
      (if is_auto_del_mail = true ∧ msg.sender_id > 0 ∧ sender_online h msg = none ∧
          h.select_query ≠ .SQL_ERROR ∧ h.next_row ≠ .SQL_SUCCESS then
        [.rodex_updatemail sd.bl_id mail_id 0 3]
      else []) ∧
    (∀ snd_sd, msg.sender_id > 0 → sender_online h msg = some snd_sd →
      notify_or_delete h is_auto_del_mail sd mail_id msg = sender_notifications snd_sd ∧
      (∀ e ∈ sender_notifications snd_sd,
        e ∈ clif_parse_mail_return_btn h is_auto_del_mail (some sd) mail_id) ∧
      mail_deletes (clif_parse_mail_return_btn h is_auto_del_mail (some sd) mail_id) = []) := by
  have hdel : mail_deletes (clif_parse_mail_return_btn h is_auto_del_mail (some sd) mail_id) =
      (if is_auto_del_mail = true ∧ msg.sender_id > 0 ∧ sender_online h msg = none ∧
          h.select_query ≠ .SQL_ERROR ∧ h.next_row ≠ .SQL_SUCCESS then
        [.rodex_updatemail sd.bl_id mail_id 0 3]
      else []) := by
    rw [clif_parse_mail_return_btn_found h is_auto_del_mail sd mail_id msg hok hid hmail,
      mail_deletes_append, mail_deletes_append, mail_deletes_append, mail_deletes_append,
      mail_deletes_debug, mail_deletes_notify_or_delete]
    split_ifs <;> rfl
  have hmem : ∀ e, e ∈ mail_deletes (clif_parse_mail_return_btn h is_auto_del_mail (some sd) mail_id) ↔
      (e ∈ clif_parse_mail_return_btn h is_auto_del_mail (some sd) mail_id ∧
        ∃ a b c d, e = Effect.rodex_updatemail a b c d) := by
    intro e
    unfold mail_deletes
    rw [List.mem_filter]
    constructor
    · rintro ⟨h1, h2⟩
      refine ⟨h1, ?_⟩
      cases e <;> first | exact ⟨_, _, _, _, rfl⟩ | cases h2
    · rintro ⟨h1, a, b, c, d, rfl⟩
      exact ⟨h1, rfl⟩
  refine ⟨?_, hdel, ?_⟩
  · constructor
    · intro hin
      have hin2 := (hmem _).mpr ⟨hin, _, _, _, _, rfl⟩
      rw [hdel] at hin2
      by_contra hc
      rw [if_neg hc] at hin2
      cases hin2
    · intro hc
      have hin2 : Effect.rodex_updatemail sd.bl_id mail_id 0 3 ∈
          mail_deletes (clif_parse_mail_return_btn h is_auto_del_mail (some sd) mail_id) := by
        rw [hdel, if_pos hc]
        exact List.mem_singleton.mpr rfl
      exact ((hmem _).mp hin2).1
  · intro snd_sd hpos hon
    have hblock : notify_or_delete h is_auto_del_mail sd mail_id msg = sender_notifications snd_sd := by
      unfold notify_or_delete
      unfold sender_online at hon
      rw [if_pos hpos, hon]
      rfl
    refine ⟨hblock, ?_, ?_⟩
    · intro e he
      rw [clif_parse_mail_return_btn_found h is_auto_del_mail sd mail_id msg hok hid hmail, hblock]
      apply List.mem_append_left
      apply List.mem_append_right
      exact he
    · rw [hdel, if_neg (fun hc => by rw [hon] at hc; cases hc.2.2.1)]

/-- The decision table at concrete hosts: an idle player returns mail 7, whose sender 150001
is offline. With no row in the character table the delete is issued once; with a row it is
not; with the sender online the sender is notified and nothing is deleted. -/
theorem returned_mail_auto_delete_witness :
    mail_deletes (clif_parse_mail_return_btn host_sender_gone true (some sd_idle) 7) =
      [.rodex_updatemail 2000001 7 0 3] ∧
    mail_deletes (clif_parse_mail_return_btn host_mail true (some sd_idle) 7) = [] ∧
    mail_deletes (clif_parse_mail_return_btn host_sender_online true (some sd_idle) 7) = [] :=
  ⟨((returned_mail_auto_delete host_sender_gone true sd_idle 7 { sender_id := 150001 }
        (by decide) (by decide) (by decide)).2.1).trans (by decide),
   ((returned_mail_auto_delete host_mail true sd_idle 7 { sender_id := 150001 }
        (by decide) (by decide) (by decide)).2.1).trans (by decide),
   ((returned_mail_auto_delete host_sender_online true sd_idle 7 { sender_id := 150001 }
        (by decide) (by decide) (by decide)).2.2
      { bl_id := 2000002, fd := 9, char_id := 150001, trading := false, dead := false
        vending := false } (by decide) (by decide)).2.2⟩

/-- C11, the code at the failing input: an idle player returns mail 7, whose sender 150001 is
offline, with `is_auto_del_mail` on; the `SELECT` on the character table succeeds but
`SQL->NextRow` answers `SQL_ERROR`, so the lookup has not shown that the sender is gone. The
test `SQL_SUCCESS != SQL->NextRow(...)` takes the failed fetch for a missing row and the mail
is deleted (`intif->rodex_updatemail(sd, 7, 0, 3)`), as it is when the lookup answers
`SQL_NO_DATA`; only a fetched row (`SQL_SUCCESS`) keeps the mail. -/
theorem returned_mail_deleted_on_fetch_error :
    host_fetch_error.get_mail sd_idle 7 = some { sender_id := 150001 } ∧
    sender_online host_fetch_error { sender_id := 150001 } = none ∧
    host_fetch_error.select_query = .SQL_SUCCESS ∧
    host_fetch_error.next_row = .SQL_ERROR ∧
    host_fetch_error.next_row ≠ .SQL_NO_DATA ∧
    Effect.rodex_updatemail 2000001 7 0 3 ∈
      clif_parse_mail_return_btn host_fetch_error true (some sd_idle) 7 ∧
    mail_deletes (clif_parse_mail_return_btn host_fetch_error true (some sd_idle) 7) =
      [.rodex_updatemail 2000001 7 0 3] ∧
    mail_deletes (clif_parse_mail_return_btn host_sender_gone true (some sd_idle) 7) =
      [.rodex_updatemail 2000001 7 0 3] ∧
    mail_deletes (clif_parse_mail_return_btn host_mail true (some sd_idle) 7) = [] := by
  decide

end RodexReturn

namespace EmoteUI

/-- The registrations of `plugin_init` for `PACKETVER >= 20230802`. -/
theorem plugin_init_of_ge (PACKETVER : Nat) (h : PACKETVER ≥ 20230802) :
    plugin_init PACKETVER =
      [.addPacket 0x0be9 6 "clif_parse_emotion2",
       .addPacket 0x0bec 7 "clif_parse_emote_expansion_request",
       .addLen 0x0bea 10,
       .addLen 0x0beb 7,
       .addLen 0x0bed 9,
       .addLen 0x0bee 5,
       .addLen 0x0bf6 (-1)] := by
  unfold plugin_init
  rw [if_pos h]

/-- For every `PACKETVER >= 20230802` the six fixed lengths registered by `plugin_init` are
the packed sizes of the corresponding structs. -/
theorem plugin_init_fixed_lengths (PACKETVER : Nat) (h : PACKETVER ≥ 20230802) :
    registered_len (plugin_init PACKETVER) HEADER_CZ_REQ_EMOTION2 =
        some (sizeof_PACKET_CZ_REQ_EMOTION2 : Int) ∧
    registered_len (plugin_init PACKETVER) HEADER_CZ_EMOTION_EXPANSION_REQ =
        some (sizeof_PACKET_CZ_EMOTION_EXPANSION_REQ : Int) ∧
    registered_len (plugin_init PACKETVER) HEADER_ZC_EMOTION_SUCCESS =
        some (sizeof_PACKET_ZC_EMOTION_SUCCESS : Int) ∧
    registered_len (plugin_init PACKETVER) HEADER_ZC_EMOTION_FAIL =
        some (sizeof_PACKET_ZC_EMOTION_FAIL : Int) ∧
    registered_len (plugin_init PACKETVER) HEADER_ZC_EMOTION_EXPANSION_SUCCESS =
        some (sizeof_PACKET_ZC_EMOTION_EXPANSION_SUCCESS : Int) ∧
    registered_len (plugin_init PACKETVER) HEADER_ZC_EMOTION_EXPANSION_FAIL =
        some (sizeof_PACKET_ZC_EMOTION_EXPANSION_FAIL : Int) := by
  rw [plugin_init_of_ge PACKETVER h]
  decide

/-- For `PACKETVER >= 20230920` the header of the pack list is the one `plugin_init` registers
as variable-length. -/
theorem plugin_init_list_header_of_ge (PACKETVER : Nat) (h : PACKETVER ≥ 20230920) :
    registered_len (plugin_init PACKETVER) (HEADER_ZC_EMOTION_EXPANSION_LIST PACKETVER) =
      some (-1) := by
  rw [plugin_init_of_ge PACKETVER (by omega)]
  unfold HEADER_ZC_EMOTION_EXPANSION_LIST
  rw [if_pos h]
  decide

/-- For `20230802 <= PACKETVER < 20230920` the header of the pack list, `0x0bef`, has no
length registered by `plugin_init`. -/
theorem plugin_init_list_header_of_lt (PACKETVER : Nat) (h1 : PACKETVER ≥ 20230802)
    (h2 : PACKETVER < 20230920) :
    HEADER_ZC_EMOTION_EXPANSION_LIST PACKETVER = 0x0bef ∧
    registered_len (plugin_init PACKETVER) (HEADER_ZC_EMOTION_EXPANSION_LIST PACKETVER) = none := by
  rw [plugin_init_of_ge PACKETVER h1]
  unfold HEADER_ZC_EMOTION_EXPANSION_LIST
  rw [if_neg (by omega)]
  decide

/-- C12, the code at the failing input `PACKETVER = 20230802`: the six fixed lengths registered
by `plugin_init` are the packed struct sizes, but the pack list is sent with the header
`0x0bef`, for which `plugin_init` registers no length; the variable length (-1) is registered
for `0x0bf6`, the header of `PACKETVER >= 20230920`. -/
theorem list_header_unregistered_before_20230920 :
    registered_len (plugin_init 20230802) 0x0be9 = some (sizeof_PACKET_CZ_REQ_EMOTION2 : Int) ∧
    registered_len (plugin_init 20230802) 0x0bec = some (sizeof_PACKET_CZ_EMOTION_EXPANSION_REQ : Int) ∧
    registered_len (plugin_init 20230802) 0x0bea = some (sizeof_PACKET_ZC_EMOTION_SUCCESS : Int) ∧
    registered_len (plugin_init 20230802) 0x0beb = some (sizeof_PACKET_ZC_EMOTION_FAIL : Int) ∧
    registered_len (plugin_init 20230802) 0x0bed = some (sizeof_PACKET_ZC_EMOTION_EXPANSION_SUCCESS : Int) ∧
    registered_len (plugin_init 20230802) 0x0bee = some (sizeof_PACKET_ZC_EMOTION_EXPANSION_FAIL : Int) ∧
    HEADER_ZC_EMOTION_EXPANSION_LIST 20230802 = 0x0bef ∧
    sent_headers (clif_send_emote_expansion_list 20230802 1000 sd_fresh [] 0) = [0x0bef] ∧
    sent_headers (emote_get_player_packs 20230802 (some db_small) 1000 sd_owner).2 = [0x0bef] ∧
    registered_len (plugin_init 20230802) 0x0bef = none ∧
    registered_len (plugin_init 20230802) 0x0bf6 = some (-1) := by
  decide

end EmoteUI
